import Mathlib

/-!
# nc (cmd/nc/main.go): a shallow embedding

The program is a sequence of calls into the operating system.  The embedding
makes the outcome of every such call an input (`World`), and makes every call
the program performs an output (`Event`, in program order).  The functions
`parseFlags`, `listenMode`, `connectMode` and `main` of `main.go` become pure
functions from the parsed flags and a `World` to the returned error and the
list of events.  Go's `defer` is modelled by an explicit stack of deferred
calls that is run, last registered first, after the function body has
assigned the result variable `err`.
-/

namespace Nc

/-- A byte of payload (its value plays no role: the program never inspects data). -/
abbrev Byte := Nat

/-- Go `error` values: an error coming from the flag checks or from the operating
system (`base`), `fmt.Errorf("<desc>: %w", inner)` (`wrap`), or the library's
`&net.OpError{Op: op, Net: net, Source: source, Addr: addr, Err: inner}` (`opError`). -/
inductive Err where
  | base (msg : String)
  | wrap (desc : String) (inner : Err)
  | opError (op net source addr : String) (inner : Err)
  deriving DecidableEq, Repr

/-- The text of an error, `err.Error()`. -/
def Err.message : Err → String
  | .base m => m
  | .wrap d e => d ++ ": " ++ e.message
  | .opError op net source addr e =>
    op ++ " " ++ net ++ " " ++ source ++ "->" ++ addr ++ ": " ++ e.message

/-- The sentinel `io.ErrShortWrite`. -/
def ErrShortWrite : Err := .base "short write"

/-- The sentinel `errInvalidWrite` of package `io`. -/
def errInvalidWrite : Err := .base "invalid write result"

/-- The flag variables of lines 33-39 after `flag.Parse()`, together with the
positional arguments `flag.Args()`. -/
structure Flags where
  useIPv4 : Bool
  useIPv6 : Bool
  listen : Bool
  source : String
  verbose : Bool
  inputFile : String
  outputFile : String
  args : List String
  deriving DecidableEq, Repr

/-- The package variables `network` and `destination` (lines 41-42). -/
structure Globals where
  network : String
  destination : String
  deriving DecidableEq, Repr

/-- The streams and resources the program touches. -/
inductive Handle where
  | listener
  | conn
  | stdin
  | stdout
  | file (name : String)
  deriving DecidableEq, Repr

/-- The error part of the result of one `Read`: `nil`, `io.EOF`, or another error. -/
inductive ReadStatus where
  | more
  | eof
  | failed (e : Err)
  deriving DecidableEq, Repr

/-- The result `(n, err)` of one `Read` call: the `n` bytes delivered and the error part. -/
structure ReadStep where
  bytes : List Byte
  status : ReadStatus
  deriving DecidableEq, Repr

/-- The result `(n, err)` of one `Write(p)` call: everything taken without error
(`ok`), the count `n` and an error (`failed`), or the count `n` without an
error (`short`; the copy loop turns `n < len(p)` into `io.ErrShortWrite` and
`n > len(p)` into `errInvalidWrite`). -/
inductive WriteStep where
  | ok
  | failed (n : Nat) (e : Err)
  | short (n : Nat)
  deriving DecidableEq, Repr

/-- The outcome of every call into the operating system that the program can make.
`connNet` and `connLocalAddr` are the network and the local address of the
connection, `remoteAddr` its remote address.  `reads h` is the sequence of
results of the successive `Read` calls on `h` (after the last one every `Read`
returns `0, io.EOF`), `writes h` the sequence of results of the successive
`Write` calls on `h` (after the last one every `Write` succeeds). -/
structure World where
  listenErr : Option Err
  listenerAddr : String
  acceptErr : Option Err
  remoteAddr : String
  resolveErr : Option Err
  localAddr : String
  dialErr : Option Err
  connNet : String
  connLocalAddr : String
  connIsReaderFrom : Bool
  createErr : Option Err
  openErr : Option Err
  closeErr : Handle → Option Err
  reads : Handle → List ReadStep
  writes : Handle → List WriteStep

/-- One call made by the program, with its result. -/
inductive Event where
  | listen (network address : String) (err : Option Err)
  | accept (err : Option Err)
  | resolve (network address : String) (err : Option Err)
  | dial (network address : String) (localAddr : Option String) (err : Option Err)
  | create (name : String) (err : Option Err)
  | openFile (name : String) (err : Option Err)
  | read (h : Handle) (bytes : List Byte) (status : ReadStatus)
  | write (h : Handle) (buf : List Byte) (n : Nat) (err : Option Err)
  | close (h : Handle) (err : Option Err)
  | stderr (text : String)
  | printDefaults
  | exit (code : Nat)
  deriving DecidableEq, Repr

/-- The library function `net.JoinHostPort`: a host with a colon is bracketed. -/
def JoinHostPort (host port : String) : String :=
  if host.data.contains ':' then "[" ++ host ++ "]:" ++ port
  else host ++ ":" ++ port

/-- Lines 82-118.  Returns the error and the package variables after the call
(`destination` is assigned on line 99, before the flag combinations are checked). -/
def parseFlags (f : Flags) (g : Globals) : Option Err × Globals :=
  if f.args.length ≠ 2 then
    (some (.base "invalid number of arguments"), g)
  else
    let host := f.args.getD 0 ""
    if host = "" then
      (some (.base "destination must be specified"), g)
    else
      let port := f.args.getD 1 ""
      if port = "" then
        (some (.base "port must be specified"), g)
      else
        let g := { g with destination := JoinHostPort host port }
        if f.useIPv4 && f.useIPv6 then
          (some (.base "cannot specify both -4 and -6"), g)
        else if f.listen && f.source ≠ "" then
          (some (.base "cannot specify source address in listen mode"), g)
        else if f.listen && f.inputFile ≠ "" then
          (some (.base "cannot specify input file in listen mode"), g)
        else if !f.listen && f.outputFile ≠ "" then
          (some (.base "cannot specify output file in connect mode"), g)
        else
          (none, g)

/-- The result `(nw, ew)` of `dst.Write(p)` for the scripted outcome `s`
(no script left: the write succeeds). -/
def writeResult (p : List Byte) : Option WriteStep → Nat × Option Err
  | none => (p.length, none)
  | some .ok => (p.length, none)
  | some (.failed n e) => (n, some e)
  | some (.short n) => (n, none)

/-- The error with which the copy loop stops after `dst.Write(p)` returned
`(nw, ew)`, if it stops:
`if nw < 0 || nr < nw { nw = 0; if ew == nil { ew = errInvalidWrite } }`,
`if ew != nil { err = ew; break }`, `if nr != nw { err = ErrShortWrite; break }`. -/
def writeError (p : List Byte) (nw : Nat) (ew : Option Err) : Option Err :=
  let invalid := decide (p.length < nw)
  let ew :=
    if invalid then
      match ew with
      | some e => some e
      | none => some errInvalidWrite
    else ew
  let nw := if invalid then 0 else nw
  match ew with
  | some e => some e
  | none => if p.length ≠ nw then some ErrShortWrite else none

/-- The loop of the library function `io.Copy(dst, src)`: read a chunk; if it
is not empty write it, and stop with the write error, with `errInvalidWrite` or
with `io.ErrShortWrite`; then stop at `io.EOF` (no error) or at a read error.
Returns `err` and the calls made.  The errors of the single `Read` and `Write`
calls are those that the world gives, with whatever the library put into them
below this loop. -/
def copyLoop (dst src : Handle) : List ReadStep → List WriteStep → Option Err × List Event
  | [], _ => (none, [.read src [] .eof])
  | r :: rs, ws =>
    let rd := Event.read src r.bytes r.status
    if r.bytes ≠ [] then
      let res := writeResult r.bytes ws.head?
      let wr := Event.write dst r.bytes res.1 res.2
      match writeError r.bytes res.1 res.2 with
      | some ew => (some ew, [rd, wr])
      | none =>
        match r.status with
        | .failed er => (some er, [rd, wr])
        | .eof => (none, [rd, wr])
        | .more =>
          let rest := copyLoop dst src rs ws.tail
          (rest.1, rd :: wr :: rest.2)
    else
      match r.status with
      | .failed er => (some er, [rd])
      | .eof => (none, [rd])
      | .more =>
        let rest := copyLoop dst src rs ws
        (rest.1, rd :: rest.2)

/-- The error that `(*net.TCPConn).ReadFrom` and `(*net.TCPConn).WriteTo` return
for a non-nil error `err` of the copy:
`&OpError{Op: op, Net: c.fd.net, Source: c.fd.laddr, Addr: c.fd.raddr, Err: err}`. -/
def opError (w : World) (op : String) (err : Err) : Err :=
  .opError op w.connNet w.connLocalAddr w.remoteAddr err

/-- The library method `(*net.TCPConn).WriteTo(dst)`: the bytes of the connection
are copied to `dst`, and a non-nil error is put into an `OpError` "writeto". -/
def WriteTo (w : World) (dst : Handle) : Option Err × List Event :=
  let res := copyLoop dst .conn (w.reads .conn) (w.writes dst)
  (res.1.map (opError w "writeto"), res.2)

/-- The library method `(*net.TCPConn).ReadFrom(src)`: the bytes of `src` are
copied to the connection, and a non-nil error is put into an `OpError` "readfrom". -/
def ReadFrom (w : World) (src : Handle) : Option Err × List Event :=
  let res := copyLoop .conn src (w.reads src) (w.writes .conn)
  (res.1.map (opError w "readfrom"), res.2)

/-- The library function `io.Copy(dst, src)`: `src.WriteTo(dst)` when the source
has that method, as the connection, a `*net.TCPConn`, has; else
`dst.ReadFrom(src)` when the destination has that method; else the loop.  (The
`WriteTo` of a file or standard stream hands over to the same choice when the
other side is a TCP connection.) -/
def Copy (w : World) (dst src : Handle) : Option Err × List Event :=
  if src = .conn then WriteTo w dst
  else if dst = .conn ∧ w.connIsReaderFrom = true then ReadFrom w src
  else copyLoop dst src (w.reads src) (w.writes dst)

/-- A call registered with `defer`. -/
inductive Deferred where
  | closeListener
  | closeConn
  | closeFile (name : String)
  deriving DecidableEq, Repr

/-- The state of a function at its `return`: the named result `err`, the calls
made so far, and the deferred calls, the most recently registered first. -/
structure Frame where
  err : Option Err
  trace : List Event
  defers : List Deferred

/-- Running the deferred calls at function exit.  `defer listener.Close()` and
`defer conn.Close()` drop the result of `Close`; the deferred closure of lines
150-154 and 201-205 assigns `err` when `Close` fails and `err == nil`. -/
def runDeferred (w : World) : List Deferred → Option Err × List Event → Option Err × List Event
  | [], s => s
  | .closeListener :: ds, (err, t) =>
    runDeferred w ds (err, t ++ [.close .listener (w.closeErr .listener)])
  | .closeConn :: ds, (err, t) =>
    runDeferred w ds (err, t ++ [.close .conn (w.closeErr .conn)])
  | .closeFile name :: ds, (err, t) =>
    let tmpErr := w.closeErr (.file name)
    let err :=
      match tmpErr, err with
      | some te, none => some (Err.wrap "failed to close file" te)
      | _, _ => err
    runDeferred w ds (err, t ++ [.close (.file name) tmpErr])

/-- The pattern `if *verbose { fmt.Fprintf(os.Stderr, ...) }`: the message goes to
the standard error stream in verbose mode only. -/
def say (f : Flags) (text : String) : List Event :=
  if f.verbose then [.stderr text] else []

/-- Lines 157-161: `io.Copy(writer, conn)` and the return. -/
def listenCopy (w : World) (writer : Handle) (t : List Event) (ds : List Deferred) : Frame :=
  let res := Copy w writer .conn
  match res.1 with
  | some e => ⟨some (.wrap "failed to read from connection" e), t ++ res.2, ds⟩
  | none => ⟨none, t ++ res.2, ds⟩

/-- Lines 120-162 up to the `return` statements: the body of `listenMode`. -/
def listenBody (f : Flags) (g : Globals) (w : World) : Frame :=
  let t := [Event.listen g.network g.destination w.listenErr]
  match w.listenErr with
  | some e => ⟨some (.wrap "failed to listen" e), t, []⟩
  | none =>
    let ds := [Deferred.closeListener]
    let t := t ++ say f ("listening on " ++ w.listenerAddr ++ "\n")
    let t := t ++ [.accept w.acceptErr]
    match w.acceptErr with
    | some e => ⟨some (.wrap "failed to accept connection" e), t, ds⟩
    | none =>
      let ds := Deferred.closeConn :: ds
      let t := t ++ say f ("connection from " ++ w.remoteAddr ++ "\n")
      if f.outputFile ≠ "" then
        let t := t ++ [.create f.outputFile w.createErr]
        match w.createErr with
        | some e => ⟨some (.wrap "failed to open file for writing" e), t, ds⟩
        | none => listenCopy w (.file f.outputFile) t (Deferred.closeFile f.outputFile :: ds)
      else
        listenCopy w .stdout t ds

/-- Lines 120-162: `listenMode`, the returned error and the calls made. -/
def listenMode (f : Flags) (g : Globals) (w : World) : Option Err × List Event :=
  let fr := listenBody f g w
  runDeferred w fr.defers (fr.err, fr.trace)

/-- Lines 209-213: `rt.ReadFrom(reader)` when the connection has the method
`ReadFrom`, `io.Copy(conn, reader)` otherwise. -/
def connectTransfer (w : World) (reader : Handle) : Option Err × List Event :=
  if w.connIsReaderFrom then ReadFrom w reader else Copy w .conn reader

/-- Lines 208-219: the copy from `reader` to the connection and the return. -/
def connectCopy (w : World) (reader : Handle) (t : List Event) (ds : List Deferred) : Frame :=
  let res := connectTransfer w reader
  match res.1 with
  | some e => ⟨some (.wrap "failed to write to connection" e), t ++ res.2, ds⟩
  | none => ⟨none, t ++ res.2, ds⟩

/-- Lines 179-219: dialling and what follows, with `dialer.LocalAddr` and the
calls made so far. -/
def connectDial (f : Flags) (g : Globals) (w : World) (localAddr : Option String)
    (t : List Event) : Frame :=
  let t := t ++ say f ("connecting to " ++ g.destination ++ "\n")
  let t := t ++ [.dial g.network g.destination localAddr w.dialErr]
  match w.dialErr with
  | some e => ⟨some (.wrap "failed to connect" e), t, []⟩
  | none =>
    let ds := [Deferred.closeConn]
    let t := t ++ say f ("connected to " ++ w.remoteAddr ++ "\n")
    if f.inputFile ≠ "" then
      let t := t ++ [.openFile f.inputFile w.openErr]
      match w.openErr with
      | some e => ⟨some (.wrap "failed to open file for reading" e), t, ds⟩
      | none => connectCopy w (.file f.inputFile) t (Deferred.closeFile f.inputFile :: ds)
    else
      connectCopy w .stdin t ds

/-- Lines 164-220 up to the `return` statements: the body of `connectMode`. -/
def connectBody (f : Flags) (g : Globals) (w : World) : Frame :=
  if f.source ≠ "" then
    let t := [Event.resolve g.network (JoinHostPort f.source "0") w.resolveErr]
    match w.resolveErr with
    | some e => ⟨some (.wrap "failed to resolve source address" e), t, []⟩
    | none =>
      let t := t ++ say f ("binding to " ++ w.localAddr ++ " as source address\n")
      connectDial f g w (some w.localAddr) t
  else
    connectDial f g w none []

/-- Lines 164-220: `connectMode`, the returned error and the calls made. -/
def connectMode (f : Flags) (g : Globals) (w : World) : Option Err × List Event :=
  let fr := connectBody f g w
  runDeferred w fr.defers (fr.err, fr.trace)

/-- Lines 47-51: the `flag.Usage` function installed by `main`. -/
def usage (progName : String) : List Event :=
  [.stderr ("usage: " ++ progName ++ " [OPTIONS] [destination] [port]\n"), .printDefaults, .exit 1]

/-- Lines 58-66: the network selected by the switch in `main`. -/
def selectNetwork (f : Flags) : String :=
  if f.useIPv4 then "tcp4" else if f.useIPv6 then "tcp6" else "tcp"

/-- The package variables when the work starts: `destination` as `parseFlags`
left it (line 99), `network` as the switch of lines 58-66 set it. -/
def mainGlobals (f : Flags) : Globals :=
  { (parseFlags f ⟨"", ""⟩).2 with network := selectNetwork f }

/-- Lines 68-74: the mode function chosen by `-l`. -/
def startWork (f : Flags) (w : World) : Option Err × List Event :=
  if f.listen then listenMode f (mainGlobals f) w else connectMode f (mainGlobals f) w

/-- Lines 45-80: `main`, the calls made and the exit status of the process. -/
def main (progName : String) (f : Flags) (w : World) : List Event × Nat :=
  match (parseFlags f ⟨"", ""⟩).1 with
  | some e => (.stderr (progName ++ ": " ++ e.message ++ "\n") :: usage progName, 1)
  | none =>
    let r := startWork f w
    match r.1 with
    | some e => (r.2 ++ [.stderr (progName ++ ": " ++ e.message ++ "\n"), .exit 1], 1)
    | none => (r.2, 0)

/-! ## Observations on the list of calls -/

/-- The call is a `Close` of `h`. -/
def Event.closes (h : Handle) : Event → Bool
  | .close h1 _ => decide (h1 = h)
  | _ => false

/-- The call opened `h`: a successful `Listen`, `Accept`, `Dial`, `os.Create` or `os.Open`. -/
def Event.opens (h : Handle) : Event → Bool
  | .listen _ _ none => decide (Handle.listener = h)
  | .accept none => decide (Handle.conn = h)
  | .dial _ _ _ none => decide (Handle.conn = h)
  | .create name none => decide (Handle.file name = h)
  | .openFile name none => decide (Handle.file name = h)
  | _ => false

/-- The call failed: it returned an error other than `io.EOF`, or it was a
`Write` that took fewer bytes than it was given. -/
def Event.failed : Event → Bool
  | .listen _ _ e => e.isSome
  | .accept e => e.isSome
  | .resolve _ _ e => e.isSome
  | .dial _ _ _ e => e.isSome
  | .create _ e => e.isSome
  | .openFile _ e => e.isSome
  | .read _ _ (.failed _) => true
  | .read _ _ _ => false
  | .write _ buf n e => e.isSome || decide (n ≠ buf.length)
  | .close _ e => e.isSome
  | _ => false

/-- The call is the `Close` of the listener or of the connection, whose result
the program drops (lines 126, 137 and 188). -/
def Event.droppedClose : Event → Bool
  | .close .listener _ => true
  | .close .conn _ => true
  | _ => false

/-- The call moves payload: a `Read` or a `Write`. -/
def Event.isTransfer : Event → Bool
  | .read _ _ _ => true
  | .write _ _ _ _ => true
  | _ => false

/-- The call is an `Accept`. -/
def Event.isAccept : Event → Bool
  | .accept _ => true
  | _ => false

/-- The call is a `Dial`. -/
def Event.isDial : Event → Bool
  | .dial _ _ _ _ => true
  | _ => false

/-- The network argument of a `Listen`, `ResolveTCPAddr` or `Dial` call. -/
def Event.network? : Event → Option String
  | .listen n _ _ => some n
  | .resolve n _ _ => some n
  | .dial n _ _ _ => some n
  | _ => none

/-- The bytes that the stream `h` has taken, in order: for every `Write` on
`h` the part of the buffer that was written. -/
def received (h : Handle) : List Event → List Byte
  | [] => []
  | .write h1 buf n _ :: t => if h1 = h then buf.take n ++ received h t else received h t
  | _ :: t => received h t

/-- The bytes that a stream delivers before end-of-data: the bytes of its
successive reads up to and including the read that reports `io.EOF` (or an error). -/
def delivered : List ReadStep → List Byte
  | [] => []
  | r :: rs =>
    match r.status with
    | .more => r.bytes ++ delivered rs
    | _ => r.bytes

/-- The calls made before the first `Close` of the listener. -/
def beforeListenerClose : List Event → List Event
  | [] => []
  | .close .listener _ :: _ => []
  | ev :: t => ev :: beforeListenerClose t

/-- The call made by a deferred call. -/
def closeEvent (w : World) : Deferred → Event
  | .closeListener => .close .listener (w.closeErr .listener)
  | .closeConn => .close .conn (w.closeErr .conn)
  | .closeFile name => .close (.file name) (w.closeErr (.file name))

/-- The calls of lines 168-177 of `connectMode` when the source address, if one
is configured, resolves. -/
def resolveCalls (f : Flags) (g : Globals) (w : World) : List Event :=
  if f.source ≠ "" then
    [Event.resolve g.network (JoinHostPort f.source "0") none]
      ++ say f ("binding to " ++ w.localAddr ++ " as source address\n")
  else []

/-- The field `dialer.LocalAddr` at the time of the `Dial`. -/
def dialerLocalAddr (f : Flags) (w : World) : Option String :=
  if f.source ≠ "" then some w.localAddr else none

/-- The sink of `listenMode` (lines 143-145): the file of `-o` if one is
configured, else the standard output. -/
def listenSink (f : Flags) : Handle :=
  if f.outputFile ≠ "" then .file f.outputFile else .stdout

/-- The source of `connectMode` (lines 194-196): the file of `-i` if one is
configured, else the standard input. -/
def connectSource (f : Flags) : Handle :=
  if f.inputFile ≠ "" then .file f.inputFile else .stdin

/-- The copy of line 157, from the connection to the sink. -/
def listenRelay (f : Flags) (w : World) : Option Err × List Event :=
  Copy w (listenSink f) .conn

/-- The copy of lines 209-213, from the source to the connection. -/
def connectRelay (f : Flags) (w : World) : Option Err × List Event :=
  connectTransfer w (connectSource f)

/-! ## Sample inputs -/

/-- Package variables as `main` leaves them for `localhost 9000` without `-4` or `-6`. -/
def sampleGlobals : Globals := ⟨"tcp", "localhost:9000"⟩

/-- The flags of `nc -l -o out.bin localhost 9000`. -/
def sampleListen : Flags :=
  { useIPv4 := false, useIPv6 := false, listen := true, source := "", verbose := false,
    inputFile := "", outputFile := "out.bin", args := ["localhost", "9000"] }

/-- The flags of `nc -i in.bin localhost 9000`. -/
def sampleConnect : Flags :=
  { useIPv4 := false, useIPv6 := false, listen := false, source := "", verbose := false,
    inputFile := "in.bin", outputFile := "", args := ["localhost", "9000"] }

/-- The flags of `nc -4 -6 -l localhost 9000`. -/
def sampleBothFamilies : Flags :=
  { useIPv4 := true, useIPv6 := true, listen := true, source := "", verbose := false,
    inputFile := "", outputFile := "", args := ["localhost", "9000"] }

/-- A world in which every call succeeds and every source delivers the bytes
1, 2 and then 3 with end-of-data. -/
def sampleWorld : World :=
  { listenErr := none, listenerAddr := "127.0.0.1:9000", acceptErr := none,
    remoteAddr := "127.0.0.1:40000", resolveErr := none, localAddr := "127.0.0.1:0",
    dialErr := none, connNet := "tcp", connLocalAddr := "127.0.0.1:9000",
    connIsReaderFrom := true, createErr := none, openErr := none,
    closeErr := fun _ => none,
    reads := fun _ => [⟨[1, 2], .more⟩, ⟨[3], .eof⟩],
    writes := fun _ => [] }

/-- As `sampleWorld`, but closing the connection fails. -/
def connCloseFailWorld : World :=
  { sampleWorld with
    closeErr := fun h => if h = .conn then some (.base "connection reset by peer") else none }

/-- As `sampleWorld`, but the address cannot be bound. -/
def listenFailWorld : World :=
  { sampleWorld with listenErr := some (.base "address already in use") }

/-- As `sampleWorld`, but the first write fails without taking a byte, and every close fails. -/
def writeFailWorld : World :=
  { sampleWorld with
    writes := fun _ => [.failed 0 (.base "write out.bin: no space left on device")],
    closeErr := fun _ => some (.base "input/output error") }

/-- As `sampleWorld`, but closing a file fails. -/
def fileCloseFailWorld : World :=
  { sampleWorld with
    closeErr := fun h => if h = .conn ∨ h = .listener then none else some (.base "input/output error") }

/-- As `sampleWorld`, but the accept fails. -/
def acceptFailWorld : World :=
  { sampleWorld with acceptErr := some (.base "use of closed network connection") }

/-- A world for connect mode, in which the connection goes from 127.0.0.1:40000
to 127.0.0.1:9000, and the first read of every source fails without delivering a byte. -/
def readFailWorld : World :=
  { sampleWorld with
    connLocalAddr := "127.0.0.1:40000", remoteAddr := "127.0.0.1:9000",
    reads := fun _ => [⟨[], .failed (.base "read in.bin: input/output error")⟩] }

/-! ## Lemmas on deferred calls and on the copy loop -/

theorem runDeferred_trace (w : World) (ds : List Deferred) (err : Option Err) (t : List Event) :
    (runDeferred w ds (err, t)).2 = t ++ ds.map (closeEvent w) := by
  induction ds generalizing err t with
  | nil => simp [runDeferred]
  | cons d ds ih => cases d <;> simp [runDeferred, ih, closeEvent]

theorem runDeferred_err_some (w : World) (ds : List Deferred) (e : Err) (t : List Event) :
    (runDeferred w ds (some e, t)).1 = some e := by
  induction ds generalizing t with
  | nil => simp [runDeferred]
  | cons d ds ih =>
    cases d with
    | closeListener => simp [runDeferred, ih]
    | closeConn => simp [runDeferred, ih]
    | closeFile name =>
      simp only [runDeferred]
      cases w.closeErr (.file name) <;> simp [ih]

theorem writeError_none (p : List Byte) (n : Nat) (e : Option Err)
    (h : writeError p n e = none) : e = none ∧ n = p.length := by
  unfold writeError at h
  cases e with
  | some x => by_cases hn : p.length < n <;> simp [hn] at h
  | none =>
    by_cases hn : p.length < n
    · simp [hn] at h
    · simp [hn] at h
      exact ⟨rfl, h.symm⟩

theorem writeError_none_iff (dst : Handle) (p : List Byte) (n : Nat) (e : Option Err) :
    writeError p n e = none ↔ (Event.write dst p n e).failed = false := by
  constructor
  · intro h
    obtain ⟨he, hn⟩ := writeError_none p n e h
    simp [Event.failed, he, hn]
  · intro h
    simp [Event.failed] at h
    obtain ⟨he, hn⟩ := h
    subst he hn
    simp [writeError]

theorem copyLoop_cons_empty (dst src : Handle) (st : ReadStatus) (rs : List ReadStep)
    (ws : List WriteStep) :
    copyLoop dst src (⟨[], st⟩ :: rs) ws =
      match st with
      | .failed er => (some er, [.read src [] (.failed er)])
      | .eof => (none, [.read src [] .eof])
      | .more =>
        ((copyLoop dst src rs ws).1, .read src [] .more :: (copyLoop dst src rs ws).2) := by
  cases st <;> simp [copyLoop]

theorem copyLoop_cons_stop (dst src : Handle) (bytes : List Byte) (st : ReadStatus)
    (rs : List ReadStep) (ws : List WriteStep) (e : Err) (hb : bytes ≠ [])
    (he : writeError bytes (writeResult bytes ws.head?).1 (writeResult bytes ws.head?).2
      = some e) :
    copyLoop dst src (⟨bytes, st⟩ :: rs) ws =
      (some e, [.read src bytes st,
        .write dst bytes (writeResult bytes ws.head?).1 (writeResult bytes ws.head?).2]) := by
  simp [copyLoop, hb, he]

theorem copyLoop_cons_written (dst src : Handle) (bytes : List Byte) (st : ReadStatus)
    (rs : List ReadStep) (ws : List WriteStep) (hb : bytes ≠ [])
    (he : writeError bytes (writeResult bytes ws.head?).1 (writeResult bytes ws.head?).2
      = none) :
    copyLoop dst src (⟨bytes, st⟩ :: rs) ws =
      match st with
      | .failed er => (some er, [.read src bytes (.failed er), .write dst bytes bytes.length none])
      | .eof => (none, [.read src bytes .eof, .write dst bytes bytes.length none])
      | .more =>
        ((copyLoop dst src rs ws.tail).1,
          .read src bytes .more :: .write dst bytes bytes.length none
            :: (copyLoop dst src rs ws.tail).2) := by
  obtain ⟨h2, h1⟩ := writeError_none _ _ _ he
  rw [h1, h2] at he
  cases st <;> simp [copyLoop, hb, he, h1, h2]

theorem copy_events (dst src : Handle) (rs : List ReadStep) (ws : List WriteStep) :
    ∀ ev ∈ (copyLoop dst src rs ws).2,
      (∃ bs st, ev = .read src bs st) ∨ (∃ buf n e, ev = .write dst buf n e) := by
  induction rs generalizing ws with
  | nil => simp [copyLoop]
  | cons r rs ih =>
    obtain ⟨bytes, status⟩ := r
    intro ev hev
    by_cases hb : bytes = []
    · subst hb
      rw [copyLoop_cons_empty] at hev
      cases status with
      | more =>
        simp at hev
        rcases hev with h | h
        · simp [h]
        · exact ih _ ev h
      | eof => simp at hev; simp [hev]
      | failed e => simp at hev; simp [hev]
    · cases he : writeError bytes (writeResult bytes ws.head?).1 (writeResult bytes ws.head?).2 with
      | some e =>
        rw [copyLoop_cons_stop dst src bytes status rs ws e hb he] at hev
        simp at hev
        rcases hev with h | h <;> simp [h]
      | none =>
        rw [copyLoop_cons_written dst src bytes status rs ws hb he] at hev
        cases status with
        | more =>
          simp at hev
          rcases hev with h | h | h
          · simp [h]
          · simp [h]
          · exact ih _ ev h
        | eof => simp at hev; rcases hev with h | h <;> simp [h]
        | failed e => simp at hev; rcases hev with h | h <;> simp [h]

theorem copy_countP_zero (p : Event → Bool) (dst src : Handle) (rs : List ReadStep)
    (ws : List WriteStep) (hr : ∀ bs st, p (.read src bs st) = false)
    (hw : ∀ buf n e, p (.write dst buf n e) = false) :
    (copyLoop dst src rs ws).2.countP p = 0 := by
  rw [List.countP_eq_zero]
  intro ev hev
  rcases copy_events dst src rs ws ev hev with ⟨bs, st, h⟩ | ⟨buf, n, e, h⟩
  · simp [h, hr]
  · simp [h, hw]

theorem received_append (h : Handle) (t1 t2 : List Event) :
    received h (t1 ++ t2) = received h t1 ++ received h t2 := by
  induction t1 with
  | nil => simp [received]
  | cons ev t ih =>
    cases ev <;> simp [received, ih]
    split <;> simp

theorem received_closes (h : Handle) (w : World) (ds : List Deferred) :
    received h (ds.map (closeEvent w)) = [] := by
  induction ds with
  | nil => simp [received]
  | cons d ds ih => cases d <;> simp [received, closeEvent, ih]

theorem copy_none_iff (dst src : Handle) (rs : List ReadStep) (ws : List WriteStep) :
    (copyLoop dst src rs ws).1 = none ↔ ∀ ev ∈ (copyLoop dst src rs ws).2, ev.failed = false := by
  induction rs generalizing ws with
  | nil => simp [copyLoop, Event.failed]
  | cons r rs ih =>
    obtain ⟨bytes, status⟩ := r
    by_cases hb : bytes = []
    · subst hb
      rw [copyLoop_cons_empty]
      cases status with
      | more => simp [ih ws, Event.failed]
      | eof => simp [Event.failed]
      | failed e => simp [Event.failed]
    · cases he : writeError bytes (writeResult bytes ws.head?).1 (writeResult bytes ws.head?).2 with
      | some e =>
        rw [copyLoop_cons_stop dst src bytes status rs ws e hb he]
        have hf : (Event.write dst bytes (writeResult bytes ws.head?).1
            (writeResult bytes ws.head?).2).failed ≠ false := by
          intro hf
          rw [← writeError_none_iff, he] at hf
          simp at hf
        simp only [List.forall_mem_cons]
        constructor
        · intro h; simp at h
        · intro h; exact absurd h.2.1 hf
      | none =>
        rw [copyLoop_cons_written dst src bytes status rs ws hb he]
        cases status with
        | more => simp [ih ws.tail, Event.failed]
        | eof => simp [Event.failed]
        | failed e => simp [Event.failed]

theorem copy_received (dst src : Handle) (rs : List ReadStep) (ws : List WriteStep)
    (hok : ∀ ev ∈ (copyLoop dst src rs ws).2, ev.failed = false) :
    received dst (copyLoop dst src rs ws).2 = delivered rs := by
  induction rs generalizing ws with
  | nil => simp [copyLoop, received, delivered]
  | cons r rs ih =>
    obtain ⟨bytes, status⟩ := r
    by_cases hb : bytes = []
    · subst hb
      rw [copyLoop_cons_empty] at hok ⊢
      cases status with
      | more =>
        simp at hok ⊢
        simp [received, delivered, ih ws hok.2]
      | eof => simp [received, delivered]
      | failed e => simp [received, delivered]
    · cases he : writeError bytes (writeResult bytes ws.head?).1 (writeResult bytes ws.head?).2 with
      | some e =>
        have hn := (copy_none_iff dst src (⟨bytes, status⟩ :: rs) ws).2 hok
        rw [copyLoop_cons_stop dst src bytes status rs ws e hb he] at hn
        simp at hn
      | none =>
        rw [copyLoop_cons_written dst src bytes status rs ws hb he] at hok ⊢
        cases status with
        | more =>
          simp at hok ⊢
          simp [received, delivered, ih ws.tail hok.2.2]
        | eof => simp [received, delivered]
        | failed e => simp [received, delivered]

theorem copy_drained (dst src : Handle) (rs : List ReadStep) (ws : List WriteStep)
    (h : (copyLoop dst src rs ws).1 = none) :
    ∃ bs, Event.read src bs .eof ∈ (copyLoop dst src rs ws).2 := by
  induction rs generalizing ws with
  | nil => exact ⟨[], by simp [copyLoop]⟩
  | cons r rs ih =>
    obtain ⟨bytes, status⟩ := r
    by_cases hb : bytes = []
    · subst hb
      rw [copyLoop_cons_empty] at h ⊢
      cases status with
      | more =>
        simp at h
        obtain ⟨bs, hbs⟩ := ih ws h
        exact ⟨bs, by simp [hbs]⟩
      | eof => exact ⟨[], by simp⟩
      | failed e => simp at h
    · cases he : writeError bytes (writeResult bytes ws.head?).1 (writeResult bytes ws.head?).2 with
      | some e =>
        rw [copyLoop_cons_stop dst src bytes status rs ws e hb he] at h
        simp at h
      | none =>
        rw [copyLoop_cons_written dst src bytes status rs ws hb he] at h ⊢
        cases status with
        | more =>
          simp at h
          obtain ⟨bs, hbs⟩ := ih ws.tail h
          exact ⟨bs, by simp [hbs]⟩
        | eof => exact ⟨bytes, by simp⟩
        | failed e => simp at h

/-! ## The library paths of the copy -/

theorem Copy_conn (w : World) (dst : Handle) :
    Copy w dst .conn =
      ((copyLoop dst .conn (w.reads .conn) (w.writes dst)).1.map (opError w "writeto"),
        (copyLoop dst .conn (w.reads .conn) (w.writes dst)).2) := by
  simp [Copy, WriteTo]

theorem Copy_conn_trace (w : World) (dst : Handle) :
    (Copy w dst .conn).2 = (copyLoop dst .conn (w.reads .conn) (w.writes dst)).2 := by
  rw [Copy_conn]

theorem Copy_conn_none (w : World) (dst : Handle) :
    (Copy w dst .conn).1 = none ↔
      (copyLoop dst .conn (w.reads .conn) (w.writes dst)).1 = none := by
  rw [Copy_conn]
  simp

theorem connectTransfer_trace (w : World) (reader : Handle) (hr : reader ≠ .conn) :
    (connectTransfer w reader).2
      = (copyLoop .conn reader (w.reads reader) (w.writes .conn)).2 := by
  unfold connectTransfer
  cases hc : w.connIsReaderFrom <;> simp [Copy, ReadFrom, hr, hc]

theorem connectTransfer_none (w : World) (reader : Handle) (hr : reader ≠ .conn) :
    (connectTransfer w reader).1 = none ↔
      (copyLoop .conn reader (w.reads reader) (w.writes .conn)).1 = none := by
  unfold connectTransfer
  cases hc : w.connIsReaderFrom <;> simp [Copy, ReadFrom, hr, hc]

/-! ## The verbose messages -/

theorem mem_say (f : Flags) (s : String) (ev : Event) (h : ev ∈ say f s) : ev = .stderr s := by
  unfold say at h
  split at h <;> simp at h
  exact h

theorem countP_say (p : Event → Bool) (f : Flags) (s : String) (hp : p (.stderr s) = false) :
    (say f s).countP p = 0 := by
  unfold say
  split <;> simp [hp]

theorem received_say (h : Handle) (f : Flags) (s : String) : received h (say f s) = [] := by
  unfold say
  split <;> simp [received]

/-! ## The calls of `listenMode` and `connectMode`, case by case -/

theorem listenMode_listenFail (f : Flags) (g : Globals) (w : World) (e : Err)
    (hl : w.listenErr = some e) :
    listenMode f g w =
      (some (.wrap "failed to listen" e), [.listen g.network g.destination (some e)]) := by
  simp [listenMode, listenBody, hl, runDeferred]

theorem listenMode_acceptFail (f : Flags) (g : Globals) (w : World) (e : Err)
    (hl : w.listenErr = none) (ha : w.acceptErr = some e) :
    listenMode f g w =
      (some (.wrap "failed to accept connection" e),
        [.listen g.network g.destination none]
          ++ say f ("listening on " ++ w.listenerAddr ++ "\n")
          ++ [.accept (some e), .close .listener (w.closeErr .listener)]) := by
  simp [listenMode, listenBody, hl, ha, runDeferred]

theorem listenMode_createFail (f : Flags) (g : Globals) (w : World) (e : Err)
    (hl : w.listenErr = none) (ha : w.acceptErr = none) (ho : f.outputFile ≠ "")
    (hc : w.createErr = some e) :
    listenMode f g w =
      (some (.wrap "failed to open file for writing" e),
        [.listen g.network g.destination none]
          ++ say f ("listening on " ++ w.listenerAddr ++ "\n")
          ++ [.accept none]
          ++ say f ("connection from " ++ w.remoteAddr ++ "\n")
          ++ [.create f.outputFile (some e), .close .conn (w.closeErr .conn),
              .close .listener (w.closeErr .listener)]) := by
  simp [listenMode, listenBody, hl, ha, ho, hc, runDeferred]

theorem listenMode_file (f : Flags) (g : Globals) (w : World)
    (hl : w.listenErr = none) (ha : w.acceptErr = none) (ho : f.outputFile ≠ "")
    (hc : w.createErr = none) :
    listenMode f g w =
      ((match (Copy w (.file f.outputFile) .conn).1 with
        | some e => some (.wrap "failed to read from connection" e)
        | none => (w.closeErr (.file f.outputFile)).map (Err.wrap "failed to close file")),
        [.listen g.network g.destination none]
          ++ say f ("listening on " ++ w.listenerAddr ++ "\n")
          ++ [.accept none]
          ++ say f ("connection from " ++ w.remoteAddr ++ "\n")
          ++ [.create f.outputFile none]
          ++ (copyLoop (.file f.outputFile) .conn (w.reads .conn) (w.writes (.file f.outputFile))).2
          ++ [.close (.file f.outputFile) (w.closeErr (.file f.outputFile)),
              .close .conn (w.closeErr .conn), .close .listener (w.closeErr .listener)]) := by
  simp only [listenMode, listenBody, hl, ha, hc, if_pos ho, listenCopy, Copy_conn_trace]
  cases (Copy w (.file f.outputFile) .conn).1 <;>
    cases hce : w.closeErr (.file f.outputFile) <;> simp [runDeferred, hce]

theorem listenMode_stdout (f : Flags) (g : Globals) (w : World)
    (hl : w.listenErr = none) (ha : w.acceptErr = none) (ho : f.outputFile = "") :
    listenMode f g w =
      (((Copy w .stdout .conn).1).map (Err.wrap "failed to read from connection"),
        [.listen g.network g.destination none]
          ++ say f ("listening on " ++ w.listenerAddr ++ "\n")
          ++ [.accept none]
          ++ say f ("connection from " ++ w.remoteAddr ++ "\n")
          ++ (copyLoop .stdout .conn (w.reads .conn) (w.writes .stdout)).2
          ++ [.close .conn (w.closeErr .conn), .close .listener (w.closeErr .listener)]) := by
  have ho2 : ¬ (f.outputFile ≠ "") := by simp [ho]
  simp only [listenMode, listenBody, hl, ha, if_neg ho2, listenCopy, Copy_conn_trace]
  cases (Copy w .stdout .conn).1 <;> simp [runDeferred]

theorem connectBody_resolved (f : Flags) (g : Globals) (w : World)
    (hr : f.source ≠ "" → w.resolveErr = none) :
    connectBody f g w = connectDial f g w (dialerLocalAddr f w) (resolveCalls f g w) := by
  unfold connectBody dialerLocalAddr resolveCalls
  by_cases hs : f.source ≠ ""
  · simp only [if_pos hs, hr hs]
  · simp only [if_neg hs]

theorem connectMode_resolveFail (f : Flags) (g : Globals) (w : World) (e : Err)
    (hs : f.source ≠ "") (hr : w.resolveErr = some e) :
    connectMode f g w =
      (some (.wrap "failed to resolve source address" e),
        [.resolve g.network (JoinHostPort f.source "0") (some e)]) := by
  simp only [connectMode, connectBody, if_pos hs, hr, runDeferred]

theorem connectMode_dialFail (f : Flags) (g : Globals) (w : World) (e : Err)
    (hr : f.source ≠ "" → w.resolveErr = none) (hd : w.dialErr = some e) :
    connectMode f g w =
      (some (.wrap "failed to connect" e),
        resolveCalls f g w
          ++ say f ("connecting to " ++ g.destination ++ "\n")
          ++ [.dial g.network g.destination (dialerLocalAddr f w) (some e)]) := by
  simp only [connectMode, connectBody_resolved f g w hr, connectDial, hd, runDeferred]

theorem connectMode_openFail (f : Flags) (g : Globals) (w : World) (e : Err)
    (hr : f.source ≠ "" → w.resolveErr = none) (hd : w.dialErr = none)
    (hi : f.inputFile ≠ "") (ho : w.openErr = some e) :
    connectMode f g w =
      (some (.wrap "failed to open file for reading" e),
        resolveCalls f g w
          ++ say f ("connecting to " ++ g.destination ++ "\n")
          ++ [.dial g.network g.destination (dialerLocalAddr f w) none]
          ++ say f ("connected to " ++ w.remoteAddr ++ "\n")
          ++ [.openFile f.inputFile (some e), .close .conn (w.closeErr .conn)]) := by
  simp [connectMode, connectBody_resolved f g w hr, connectDial, hd, if_pos hi, ho, runDeferred]

theorem connectMode_file (f : Flags) (g : Globals) (w : World)
    (hr : f.source ≠ "" → w.resolveErr = none) (hd : w.dialErr = none)
    (hi : f.inputFile ≠ "") (ho : w.openErr = none) :
    connectMode f g w =
      ((match (connectTransfer w (.file f.inputFile)).1 with
        | some e => some (.wrap "failed to write to connection" e)
        | none => (w.closeErr (.file f.inputFile)).map (Err.wrap "failed to close file")),
        resolveCalls f g w
          ++ say f ("connecting to " ++ g.destination ++ "\n")
          ++ [.dial g.network g.destination (dialerLocalAddr f w) none]
          ++ say f ("connected to " ++ w.remoteAddr ++ "\n")
          ++ [.openFile f.inputFile none]
          ++ (copyLoop .conn (.file f.inputFile) (w.reads (.file f.inputFile)) (w.writes .conn)).2
          ++ [.close (.file f.inputFile) (w.closeErr (.file f.inputFile)),
              .close .conn (w.closeErr .conn)]) := by
  simp only [connectMode, connectBody_resolved f g w hr, connectDial, hd, if_pos hi, ho,
    connectCopy, connectTransfer_trace w (.file f.inputFile) (by simp)]
  cases (connectTransfer w (.file f.inputFile)).1 <;>
    cases hce : w.closeErr (.file f.inputFile) <;> simp [runDeferred, hce]

theorem connectMode_stdin (f : Flags) (g : Globals) (w : World)
    (hr : f.source ≠ "" → w.resolveErr = none) (hd : w.dialErr = none)
    (hi : f.inputFile = "") :
    connectMode f g w =
      (((connectTransfer w .stdin).1).map (Err.wrap "failed to write to connection"),
        resolveCalls f g w
          ++ say f ("connecting to " ++ g.destination ++ "\n")
          ++ [.dial g.network g.destination (dialerLocalAddr f w) none]
          ++ say f ("connected to " ++ w.remoteAddr ++ "\n")
          ++ (copyLoop .conn .stdin (w.reads .stdin) (w.writes .conn)).2
          ++ [.close .conn (w.closeErr .conn)]) := by
  have hi2 : ¬ (f.inputFile ≠ "") := by simp [hi]
  simp only [connectMode, connectBody_resolved f g w hr, connectDial, hd, if_neg hi2,
    connectCopy, connectTransfer_trace w .stdin (by simp)]
  cases (connectTransfer w .stdin).1 <;> simp [runDeferred]

theorem mem_resolveCalls (f : Flags) (g : Globals) (w : World) (ev : Event)
    (h : ev ∈ resolveCalls f g w) :
    ev = .resolve g.network (JoinHostPort f.source "0") none ∨
      ev = .stderr ("binding to " ++ w.localAddr ++ " as source address\n") := by
  unfold resolveCalls at h
  split at h
  · simp at h
    rcases h with h | h
    · exact Or.inl h
    · exact Or.inr (mem_say _ _ _ h)
  · simp at h

theorem countP_resolveCalls (p : Event → Bool) (f : Flags) (g : Globals) (w : World)
    (hr : ∀ n a, p (.resolve n a none) = false) (hs : ∀ s, p (.stderr s) = false) :
    (resolveCalls f g w).countP p = 0 := by
  rw [List.countP_eq_zero]
  intro ev hev
  rcases mem_resolveCalls f g w ev hev with h | h <;> simp [h, hr, hs]

theorem received_resolveCalls (h : Handle) (f : Flags) (g : Globals) (w : World) :
    received h (resolveCalls f g w) = [] := by
  unfold resolveCalls
  split <;> simp [received, received_say]

/-! ## C1: the relay moves the bytes unchanged -/

theorem listenMode_round_trip (f : Flags) (g : Globals) (w : World)
    (hok : ∀ ev ∈ (listenMode f g w).2, ev.failed = false) :
    received (if f.outputFile ≠ "" then .file f.outputFile else .stdout) (listenMode f g w).2
      = delivered (w.reads .conn) := by
  cases hl : w.listenErr with
  | some e =>
    rw [listenMode_listenFail f g w e hl] at hok
    simp [Event.failed] at hok
  | none =>
    cases ha : w.acceptErr with
    | some e =>
      rw [listenMode_acceptFail f g w e hl ha] at hok
      have := hok (.accept (some e)) (by simp)
      simp [Event.failed] at this
    | none =>
      by_cases ho : f.outputFile = ""
      · rw [listenMode_stdout f g w hl ha ho] at hok ⊢
        have hc := copy_received .stdout .conn (w.reads .conn) (w.writes .stdout)
          (fun ev hev => hok ev (by simp [hev]))
        simp [ho, received_append, received_say, received, hc]
      · cases hcr : w.createErr with
        | some e =>
          rw [listenMode_createFail f g w e hl ha ho hcr] at hok
          have := hok (.create f.outputFile (some e)) (by simp)
          simp [Event.failed] at this
        | none =>
          rw [listenMode_file f g w hl ha ho hcr] at hok ⊢
          have hc := copy_received (.file f.outputFile) .conn (w.reads .conn)
            (w.writes (.file f.outputFile)) (fun ev hev => hok ev (by simp [hev]))
          simp [ho, received_append, received_say, received, hc]

theorem connectMode_round_trip (f : Flags) (g : Globals) (w : World)
    (hok : ∀ ev ∈ (connectMode f g w).2, ev.failed = false) :
    received .conn (connectMode f g w).2
      = delivered (w.reads (if f.inputFile ≠ "" then .file f.inputFile else .stdin)) := by
  by_cases hr : f.source ≠ "" → w.resolveErr = none
  · cases hd : w.dialErr with
    | some e =>
      rw [connectMode_dialFail f g w e hr hd] at hok
      have := hok (.dial g.network g.destination (dialerLocalAddr f w) (some e)) (by simp)
      simp [Event.failed] at this
    | none =>
      by_cases hi : f.inputFile = ""
      · rw [connectMode_stdin f g w hr hd hi] at hok ⊢
        have hc := copy_received .conn .stdin (w.reads .stdin) (w.writes .conn)
          (fun ev hev => hok ev (by simp [hev]))
        simp [hi, received_append, received_say, received_resolveCalls, received, hc]
      · cases hop : w.openErr with
        | some e =>
          rw [connectMode_openFail f g w e hr hd hi hop] at hok
          have := hok (.openFile f.inputFile (some e)) (by simp)
          simp [Event.failed] at this
        | none =>
          rw [connectMode_file f g w hr hd hi hop] at hok ⊢
          have hc := copy_received .conn (.file f.inputFile) (w.reads (.file f.inputFile))
            (w.writes .conn) (fun ev hev => hok ev (by simp [hev]))
          simp [hi, received_append, received_say, received_resolveCalls, received, hc]
  · have hs : f.source ≠ "" := fun h => hr (fun h2 => absurd h h2)
    cases hre : w.resolveErr with
    | none => exact absurd (fun _ => hre) hr
    | some e =>
      rw [connectMode_resolveFail f g w e hs hre] at hok
      simp [Event.failed] at hok

/-- C1: when no call fails, the sink has taken exactly the bytes that the source
delivered before end-of-data, in order.  In `listenMode` the source is the
connection and the sink is the file of `-o` if one is configured, else the
standard output; in `connectMode` the source is the file of `-i` if one is
configured, else the standard input, and the sink is the connection. -/
theorem relay_round_trip (f : Flags) (g : Globals) (w : World) :
    ((∀ ev ∈ (listenMode f g w).2, ev.failed = false) →
      received (if f.outputFile ≠ "" then .file f.outputFile else .stdout) (listenMode f g w).2
        = delivered (w.reads .conn)) ∧
    ((∀ ev ∈ (connectMode f g w).2, ev.failed = false) →
      received .conn (connectMode f g w).2
        = delivered (w.reads (if f.inputFile ≠ "" then .file f.inputFile else .stdin))) :=
  ⟨listenMode_round_trip f g w, connectMode_round_trip f g w⟩

/-- C1 at `sampleWorld`: the file `out.bin` takes 1, 2, 3 from the connection,
and the connection takes 1, 2, 3 from the file `in.bin`. -/
theorem relay_round_trip_witness :
    (∀ ev ∈ (listenMode sampleListen sampleGlobals sampleWorld).2, ev.failed = false) ∧
    (∀ ev ∈ (connectMode sampleConnect sampleGlobals sampleWorld).2, ev.failed = false) ∧
    received (.file "out.bin") (listenMode sampleListen sampleGlobals sampleWorld).2 = [1, 2, 3] ∧
    received .conn (connectMode sampleConnect sampleGlobals sampleWorld).2 = [1, 2, 3] :=
  ⟨by decide, by decide,
    (relay_round_trip sampleListen sampleGlobals sampleWorld).1 (by decide),
    (relay_round_trip sampleConnect sampleGlobals sampleWorld).2 (by decide)⟩

/-! ## C2: every opened resource is closed exactly once -/

theorem copy_closes (h dst src : Handle) (rs : List ReadStep) (ws : List WriteStep) :
    (copyLoop dst src rs ws).2.countP (Event.closes h) = 0 :=
  copy_countP_zero _ _ _ _ _ (by simp [Event.closes]) (by simp [Event.closes])

theorem copy_opens (h dst src : Handle) (rs : List ReadStep) (ws : List WriteStep) :
    (copyLoop dst src rs ws).2.countP (Event.opens h) = 0 :=
  copy_countP_zero _ _ _ _ _ (by simp [Event.opens]) (by simp [Event.opens])

theorem listenMode_closes (f : Flags) (g : Globals) (w : World) (h : Handle) :
    (listenMode f g w).2.countP (Event.closes h) = (listenMode f g w).2.countP (Event.opens h) ∧
    (listenMode f g w).2.countP (Event.opens h) ≤ 1 := by
  have s1 : ∀ s, (say f s).countP (Event.closes h) = 0 := fun s => countP_say _ _ _ rfl
  have s2 : ∀ s, (say f s).countP (Event.opens h) = 0 := fun s => countP_say _ _ _ rfl
  cases hl : w.listenErr with
  | some e =>
    rw [listenMode_listenFail f g w e hl]
    simp [List.countP_cons, Event.closes, Event.opens]
  | none =>
    cases ha : w.acceptErr with
    | some e =>
      rw [listenMode_acceptFail f g w e hl ha]
      simp [List.countP_cons, Event.closes, Event.opens, s1, s2]
      split <;> simp
    | none =>
      by_cases ho : f.outputFile = ""
      · rw [listenMode_stdout f g w hl ha ho]
        simp [List.countP_cons, Event.closes, Event.opens, s1, s2, copy_closes, copy_opens]
        cases h <;> simp
      · cases hcr : w.createErr with
        | some e =>
          rw [listenMode_createFail f g w e hl ha ho hcr]
          simp [List.countP_cons, Event.closes, Event.opens, s1, s2]
          cases h <;> simp
        | none =>
          rw [listenMode_file f g w hl ha ho hcr]
          simp [List.countP_cons, Event.closes, Event.opens, s1, s2, copy_closes, copy_opens]
          cases h <;> simp
          split <;> simp

theorem connectMode_closes (f : Flags) (g : Globals) (w : World) (h : Handle) :
    (connectMode f g w).2.countP (Event.closes h)
      = (connectMode f g w).2.countP (Event.opens h) ∧
    (connectMode f g w).2.countP (Event.opens h) ≤ 1 := by
  have s1 : ∀ s, (say f s).countP (Event.closes h) = 0 := fun s => countP_say _ _ _ rfl
  have s2 : ∀ s, (say f s).countP (Event.opens h) = 0 := fun s => countP_say _ _ _ rfl
  have r1 : (resolveCalls f g w).countP (Event.closes h) = 0 :=
    countP_resolveCalls _ _ _ _ (fun _ _ => rfl) (fun _ => rfl)
  have r2 : (resolveCalls f g w).countP (Event.opens h) = 0 :=
    countP_resolveCalls _ _ _ _ (fun _ _ => rfl) (fun _ => rfl)
  by_cases hr : f.source ≠ "" → w.resolveErr = none
  · cases hd : w.dialErr with
    | some e =>
      rw [connectMode_dialFail f g w e hr hd]
      simp [List.countP_cons, Event.closes, Event.opens, s1, s2, r1, r2]
    | none =>
      by_cases hi : f.inputFile = ""
      · rw [connectMode_stdin f g w hr hd hi]
        simp [List.countP_cons, Event.closes, Event.opens, s1, s2, r1, r2, copy_closes,
          copy_opens]
        split <;> simp
      · cases hop : w.openErr with
        | some e =>
          rw [connectMode_openFail f g w e hr hd hi hop]
          simp [List.countP_cons, Event.closes, Event.opens, s1, s2, r1, r2]
          split <;> simp
        | none =>
          rw [connectMode_file f g w hr hd hi hop]
          simp [List.countP_cons, Event.closes, Event.opens, s1, s2, r1, r2, copy_closes,
            copy_opens]
          cases h <;> simp
          split <;> simp
  · have hs : f.source ≠ "" := fun h => hr (fun h2 => absurd h h2)
    cases hre : w.resolveErr with
    | none => exact absurd (fun _ => hre) hr
    | some e =>
      rw [connectMode_resolveFail f g w e hs hre]
      simp [List.countP_cons, Event.closes, Event.opens]

theorem opens_standard (ev : Event) :
    Event.opens .stdin ev = false ∧ Event.opens .stdout ev = false := by
  cases ev with
  | listen n a e => cases e <;> simp [Event.opens]
  | accept e => cases e <;> simp [Event.opens]
  | dial n a l e => cases e <;> simp [Event.opens]
  | create n e => cases e <;> simp [Event.opens]
  | openFile n e => cases e <;> simp [Event.opens]
  | _ => simp [Event.opens]

theorem countP_opens_standard (t : List Event) :
    t.countP (Event.opens .stdin) = 0 ∧ t.countP (Event.opens .stdout) = 0 := by
  constructor <;> rw [List.countP_eq_zero] <;> intro ev _ <;> simp [opens_standard ev]

/-- C2: in every execution of `listenMode` and of `connectMode`, whichever calls
fail, each resource (listener, connection, file) is closed as many times as it
was opened, which is at most once; so what was opened is closed exactly once
and what was never opened is never closed.  The standard input and the
standard output are never closed. -/
theorem resources_closed_exactly_once (f : Flags) (g : Globals) (w : World) (h : Handle) :
    ((listenMode f g w).2.countP (Event.closes h) = (listenMode f g w).2.countP (Event.opens h) ∧
      (listenMode f g w).2.countP (Event.opens h) ≤ 1 ∧
      (listenMode f g w).2.countP (Event.closes .stdin) = 0 ∧
      (listenMode f g w).2.countP (Event.closes .stdout) = 0) ∧
    ((connectMode f g w).2.countP (Event.closes h)
        = (connectMode f g w).2.countP (Event.opens h) ∧
      (connectMode f g w).2.countP (Event.opens h) ≤ 1 ∧
      (connectMode f g w).2.countP (Event.closes .stdin) = 0 ∧
      (connectMode f g w).2.countP (Event.closes .stdout) = 0) := by
  refine ⟨⟨(listenMode_closes f g w h).1, (listenMode_closes f g w h).2, ?_, ?_⟩,
    ⟨(connectMode_closes f g w h).1, (connectMode_closes f g w h).2, ?_, ?_⟩⟩
  · rw [(listenMode_closes f g w .stdin).1]; exact (countP_opens_standard _).1
  · rw [(listenMode_closes f g w .stdout).1]; exact (countP_opens_standard _).2
  · rw [(connectMode_closes f g w .stdin).1]; exact (countP_opens_standard _).1
  · rw [(connectMode_closes f g w .stdout).1]; exact (countP_opens_standard _).2

/-! ## C3: the first error is the one returned -/

theorem listenMode_first_error (f : Flags) (g : Globals) (w : World) :
    (∀ e, w.listenErr = some e →
      (listenMode f g w).1 = some (.wrap "failed to listen" e)) ∧
    (∀ e, w.listenErr = none → w.acceptErr = some e →
      (listenMode f g w).1 = some (.wrap "failed to accept connection" e)) ∧
    (∀ e, w.listenErr = none → w.acceptErr = none → f.outputFile ≠ "" →
      w.createErr = some e →
      (listenMode f g w).1 = some (.wrap "failed to open file for writing" e)) ∧
    (∀ e, w.listenErr = none → w.acceptErr = none → (f.outputFile ≠ "" → w.createErr = none) →
      (listenRelay f w).1 = some e →
      (listenMode f g w).1 = some (.wrap "failed to read from connection" e)) ∧
    (∀ x, (listenMode f g w).1 = some (.wrap "failed to close file" x) →
      w.listenErr = none ∧ w.acceptErr = none ∧ f.outputFile ≠ "" ∧ w.createErr = none ∧
      (listenRelay f w).1 = none ∧ w.closeErr (.file f.outputFile) = some x) := by
  refine ⟨fun e hl => ?_, fun e hl ha => ?_, fun e hl ha ho hc => ?_,
    fun e hl ha hc hcopy => ?_, fun x hx => ?_⟩
  · rw [listenMode_listenFail f g w e hl]
  · rw [listenMode_acceptFail f g w e hl ha]
  · rw [listenMode_createFail f g w e hl ha ho hc]
  · by_cases ho : f.outputFile = ""
    · rw [listenMode_stdout f g w hl ha ho]
      simp [listenRelay, listenSink, ho] at hcopy
      simp [hcopy]
    · rw [listenMode_file f g w hl ha ho (hc ho)]
      simp [listenRelay, listenSink, ho] at hcopy
      simp [hcopy]
  · cases hl : w.listenErr with
    | some e => rw [listenMode_listenFail f g w e hl] at hx; simp at hx
    | none =>
      cases ha : w.acceptErr with
      | some e => rw [listenMode_acceptFail f g w e hl ha] at hx; simp at hx
      | none =>
        by_cases ho : f.outputFile = ""
        · rw [listenMode_stdout f g w hl ha ho] at hx
          cases hcopy : (Copy w .stdout .conn).1 <;>
            simp [hcopy] at hx
        · cases hcr : w.createErr with
          | some e => rw [listenMode_createFail f g w e hl ha ho hcr] at hx; simp at hx
          | none =>
            rw [listenMode_file f g w hl ha ho hcr] at hx
            cases hcopy : (Copy w (.file f.outputFile) .conn).1 with
            | some e => simp [hcopy] at hx
            | none =>
              cases hce : w.closeErr (.file f.outputFile) with
              | none => simp [hcopy, hce] at hx
              | some y =>
                simp [hcopy, hce] at hx
                simp [listenRelay, listenSink, ho, hcopy, hx]

theorem connectMode_first_error (f : Flags) (g : Globals) (w : World) :
    (∀ e, f.source ≠ "" → w.resolveErr = some e →
      (connectMode f g w).1 = some (.wrap "failed to resolve source address" e)) ∧
    (∀ e, (f.source ≠ "" → w.resolveErr = none) → w.dialErr = some e →
      (connectMode f g w).1 = some (.wrap "failed to connect" e)) ∧
    (∀ e, (f.source ≠ "" → w.resolveErr = none) → w.dialErr = none → f.inputFile ≠ "" →
      w.openErr = some e →
      (connectMode f g w).1 = some (.wrap "failed to open file for reading" e)) ∧
    (∀ e, (f.source ≠ "" → w.resolveErr = none) → w.dialErr = none →
      (f.inputFile ≠ "" → w.openErr = none) → (connectRelay f w).1 = some e →
      (connectMode f g w).1 = some (.wrap "failed to write to connection" e)) ∧
    (∀ x, (connectMode f g w).1 = some (.wrap "failed to close file" x) →
      (f.source ≠ "" → w.resolveErr = none) ∧ w.dialErr = none ∧ f.inputFile ≠ "" ∧
      w.openErr = none ∧ (connectRelay f w).1 = none ∧
      w.closeErr (.file f.inputFile) = some x) := by
  refine ⟨fun e hs hr => ?_, fun e hr hd => ?_, fun e hr hd hi ho => ?_,
    fun e hr hd ho hcopy => ?_, fun x hx => ?_⟩
  · rw [connectMode_resolveFail f g w e hs hr]
  · rw [connectMode_dialFail f g w e hr hd]
  · rw [connectMode_openFail f g w e hr hd hi ho]
  · by_cases hi : f.inputFile = ""
    · rw [connectMode_stdin f g w hr hd hi]
      simp [connectRelay, connectSource, hi] at hcopy
      simp [hcopy]
    · rw [connectMode_file f g w hr hd hi (ho hi)]
      simp [connectRelay, connectSource, hi] at hcopy
      simp [hcopy]
  · by_cases hr : f.source ≠ "" → w.resolveErr = none
    · cases hd : w.dialErr with
      | some e => rw [connectMode_dialFail f g w e hr hd] at hx; simp at hx
      | none =>
        by_cases hi : f.inputFile = ""
        · rw [connectMode_stdin f g w hr hd hi] at hx
          cases hcopy : (connectTransfer w .stdin).1 <;>
            simp [hcopy] at hx
        · cases hop : w.openErr with
          | some e => rw [connectMode_openFail f g w e hr hd hi hop] at hx; simp at hx
          | none =>
            rw [connectMode_file f g w hr hd hi hop] at hx
            cases hcopy : (connectTransfer w (.file f.inputFile)).1 with
            | some e => simp [hcopy] at hx
            | none =>
              cases hce : w.closeErr (.file f.inputFile) with
              | none => simp [hcopy, hce] at hx
              | some y =>
                simp [hcopy, hce] at hx
                simp [connectRelay, connectSource, hi, hcopy, hx]
                exact hr
    · have hs : f.source ≠ "" := fun h => hr (fun h2 => absurd h h2)
      cases hre : w.resolveErr with
      | none => exact absurd (fun _ => hre) hr
      | some e => rw [connectMode_resolveFail f g w e hs hre] at hx; simp at hx

/-- C3: a failing close never replaces an earlier error.  Whatever the results of
the closes, `listenMode` returns the wrapping of the error of the first of
listen, accept, file creation and copy that failed, and `connectMode` that of
the first of source-address resolution, dial, file opening and copy that
failed; the error "failed to close file" is returned only when all of these
succeeded and closing the file failed. -/
theorem first_error_wins (f : Flags) (g : Globals) (w : World) :
    ((∀ e, w.listenErr = some e →
        (listenMode f g w).1 = some (.wrap "failed to listen" e)) ∧
      (∀ e, w.listenErr = none → w.acceptErr = some e →
        (listenMode f g w).1 = some (.wrap "failed to accept connection" e)) ∧
      (∀ e, w.listenErr = none → w.acceptErr = none → f.outputFile ≠ "" →
        w.createErr = some e →
        (listenMode f g w).1 = some (.wrap "failed to open file for writing" e)) ∧
      (∀ e, w.listenErr = none → w.acceptErr = none → (f.outputFile ≠ "" → w.createErr = none) →
        (listenRelay f w).1 = some e →
        (listenMode f g w).1 = some (.wrap "failed to read from connection" e)) ∧
      (∀ x, (listenMode f g w).1 = some (.wrap "failed to close file" x) →
        w.listenErr = none ∧ w.acceptErr = none ∧ f.outputFile ≠ "" ∧ w.createErr = none ∧
        (listenRelay f w).1 = none ∧ w.closeErr (.file f.outputFile) = some x)) ∧
    ((∀ e, f.source ≠ "" → w.resolveErr = some e →
        (connectMode f g w).1 = some (.wrap "failed to resolve source address" e)) ∧
      (∀ e, (f.source ≠ "" → w.resolveErr = none) → w.dialErr = some e →
        (connectMode f g w).1 = some (.wrap "failed to connect" e)) ∧
      (∀ e, (f.source ≠ "" → w.resolveErr = none) → w.dialErr = none → f.inputFile ≠ "" →
        w.openErr = some e →
        (connectMode f g w).1 = some (.wrap "failed to open file for reading" e)) ∧
      (∀ e, (f.source ≠ "" → w.resolveErr = none) → w.dialErr = none →
        (f.inputFile ≠ "" → w.openErr = none) → (connectRelay f w).1 = some e →
        (connectMode f g w).1 = some (.wrap "failed to write to connection" e)) ∧
      (∀ x, (connectMode f g w).1 = some (.wrap "failed to close file" x) →
        (f.source ≠ "" → w.resolveErr = none) ∧ w.dialErr = none ∧ f.inputFile ≠ "" ∧
        w.openErr = none ∧ (connectRelay f w).1 = none ∧
        w.closeErr (.file f.inputFile) = some x)) :=
  ⟨listenMode_first_error f g w, connectMode_first_error f g w⟩

/-- C3 at `writeFailWorld`: the write to `out.bin` fails and then every close
fails, and the error of the write is the one returned. -/
theorem first_error_wins_witness :
    writeFailWorld.closeErr (.file "out.bin") = some (.base "input/output error") ∧
    writeFailWorld.closeErr .conn = some (.base "input/output error") ∧
    writeFailWorld.closeErr .listener = some (.base "input/output error") ∧
    (listenMode sampleListen sampleGlobals writeFailWorld).1
      = some (.wrap "failed to read from connection"
          (.opError "writeto" "tcp" "127.0.0.1:9000" "127.0.0.1:40000"
            (.base "write out.bin: no space left on device"))) :=
  ⟨rfl, rfl, rfl,
    (first_error_wins sampleListen sampleGlobals writeFailWorld).1.2.2.2.1
      (.opError "writeto" "tcp" "127.0.0.1:9000" "127.0.0.1:40000"
        (.base "write out.bin: no space left on device"))
      rfl rfl (fun _ => rfl) (by decide)⟩

/-! ## C4: which failures are reported -/

theorem say_reported (f : Flags) (s : String) :
    ∀ ev ∈ say f s, ev.failed = true → ev.droppedClose = true := by
  intro ev hev
  rw [mem_say f s ev hev]
  simp [Event.failed]

theorem resolveCalls_reported (f : Flags) (g : Globals) (w : World) :
    ∀ ev ∈ resolveCalls f g w, ev.failed = true → ev.droppedClose = true := by
  intro ev hev
  rcases mem_resolveCalls f g w ev hev with h | h <;> simp [h, Event.failed]

theorem copy_reported_iff (dst src : Handle) (rs : List ReadStep) (ws : List WriteStep) :
    (∀ ev ∈ (copyLoop dst src rs ws).2, ev.failed = true → ev.droppedClose = true) ↔
      (copyLoop dst src rs ws).1 = none := by
  rw [copy_none_iff]
  constructor
  · intro h ev hev
    have h1 := h ev hev
    rcases copy_events dst src rs ws ev hev with ⟨bs, st, he⟩ | ⟨buf, n, e, he⟩
    · subst he
      cases hf : (Event.read src bs st).failed
      · rfl
      · simp [hf, Event.droppedClose] at h1
    · subst he
      cases hf : (Event.write dst buf n e).failed
      · rfl
      · simp [hf, Event.droppedClose] at h1
  · intro h ev hev hf
    rw [h ev hev] at hf
    exact absurd hf (by simp)

theorem Copy_reported_iff (w : World) (dst : Handle) :
    (∀ ev ∈ (copyLoop dst .conn (w.reads .conn) (w.writes dst)).2,
        ev.failed = true → ev.droppedClose = true) ↔
      (Copy w dst .conn).1 = none := by
  rw [copy_reported_iff, Copy_conn_none]

theorem connectTransfer_reported_iff (w : World) (reader : Handle) (hr : reader ≠ .conn) :
    (∀ ev ∈ (copyLoop .conn reader (w.reads reader) (w.writes .conn)).2,
        ev.failed = true → ev.droppedClose = true) ↔
      (connectTransfer w reader).1 = none := by
  rw [copy_reported_iff, connectTransfer_none w reader hr]

theorem say_reported_iff (f : Flags) (s : String) :
    (∀ ev ∈ say f s, ev.failed = true → ev.droppedClose = true) ↔ True :=
  iff_true_intro (say_reported f s)

theorem resolveCalls_reported_iff (f : Flags) (g : Globals) (w : World) :
    (∀ ev ∈ resolveCalls f g w, ev.failed = true → ev.droppedClose = true) ↔ True :=
  iff_true_intro (resolveCalls_reported f g w)

theorem listenMode_reported (f : Flags) (g : Globals) (w : World) :
    (listenMode f g w).1 = none ↔
      ∀ ev ∈ (listenMode f g w).2, ev.failed = true → ev.droppedClose = true := by
  cases hl : w.listenErr with
  | some e =>
    rw [listenMode_listenFail f g w e hl]
    simp [Event.failed, Event.droppedClose]
  | none =>
    cases ha : w.acceptErr with
    | some e =>
      rw [listenMode_acceptFail f g w e hl ha]
      simp only [List.forall_mem_append, List.forall_mem_cons, say_reported_iff]
      simp [Event.failed, Event.droppedClose]
    | none =>
      by_cases ho : f.outputFile = ""
      · rw [listenMode_stdout f g w hl ha ho]
        simp only [List.forall_mem_append, List.forall_mem_cons, say_reported_iff,
          Copy_reported_iff]
        simp [Event.failed, Event.droppedClose]
      · cases hcr : w.createErr with
        | some e =>
          rw [listenMode_createFail f g w e hl ha ho hcr]
          simp only [List.forall_mem_append, List.forall_mem_cons, say_reported_iff]
          simp [Event.failed, Event.droppedClose]
        | none =>
          rw [listenMode_file f g w hl ha ho hcr]
          simp only [List.forall_mem_append, List.forall_mem_cons, say_reported_iff,
            Copy_reported_iff]
          cases (Copy w (.file f.outputFile) .conn).1 <;>
            cases w.closeErr (.file f.outputFile) <;>
            simp [Event.failed, Event.droppedClose]

theorem connectMode_reported (f : Flags) (g : Globals) (w : World) :
    (connectMode f g w).1 = none ↔
      ∀ ev ∈ (connectMode f g w).2, ev.failed = true → ev.droppedClose = true := by
  by_cases hr : f.source ≠ "" → w.resolveErr = none
  · cases hd : w.dialErr with
    | some e =>
      rw [connectMode_dialFail f g w e hr hd]
      simp only [List.forall_mem_append, List.forall_mem_cons, say_reported_iff,
        resolveCalls_reported_iff]
      simp [Event.failed, Event.droppedClose]
    | none =>
      by_cases hi : f.inputFile = ""
      · rw [connectMode_stdin f g w hr hd hi]
        simp only [List.forall_mem_append, List.forall_mem_cons, say_reported_iff,
          resolveCalls_reported_iff, connectTransfer_reported_iff w .stdin (by simp)]
        simp [Event.failed, Event.droppedClose]
      · cases hop : w.openErr with
        | some e =>
          rw [connectMode_openFail f g w e hr hd hi hop]
          simp only [List.forall_mem_append, List.forall_mem_cons, say_reported_iff,
            resolveCalls_reported_iff]
          simp [Event.failed, Event.droppedClose]
        | none =>
          rw [connectMode_file f g w hr hd hi hop]
          simp only [List.forall_mem_append, List.forall_mem_cons, say_reported_iff,
            resolveCalls_reported_iff,
            connectTransfer_reported_iff w (.file f.inputFile) (by simp)]
          cases (connectTransfer w (.file f.inputFile)).1 <;>
            cases w.closeErr (.file f.inputFile) <;>
            simp [Event.failed, Event.droppedClose]
  · have hs : f.source ≠ "" := fun h => hr (fun h2 => absurd h h2)
    cases hre : w.resolveErr with
    | none => exact absurd (fun _ => hre) hr
    | some e =>
      rw [connectMode_resolveFail f g w e hs hre]
      simp [Event.failed, Event.droppedClose]

theorem listenMode_drained (f : Flags) (g : Globals) (w : World)
    (h : (listenMode f g w).1 = none) :
    ∃ bs, Event.read .conn bs .eof ∈ (listenMode f g w).2 := by
  cases hl : w.listenErr with
  | some e => rw [listenMode_listenFail f g w e hl] at h; simp at h
  | none =>
    cases ha : w.acceptErr with
    | some e => rw [listenMode_acceptFail f g w e hl ha] at h; simp at h
    | none =>
      by_cases ho : f.outputFile = ""
      · rw [listenMode_stdout f g w hl ha ho] at h ⊢
        simp only [Option.map_eq_none', Copy_conn_none] at h
        obtain ⟨bs, hbs⟩ := copy_drained _ _ _ _ h
        exact ⟨bs, by simp [hbs]⟩
      · cases hcr : w.createErr with
        | some e => rw [listenMode_createFail f g w e hl ha ho hcr] at h; simp at h
        | none =>
          rw [listenMode_file f g w hl ha ho hcr] at h ⊢
          cases hcopy : (Copy w (.file f.outputFile) .conn).1 with
          | some e => simp [hcopy] at h
          | none =>
            obtain ⟨bs, hbs⟩ := copy_drained _ _ _ _ ((Copy_conn_none _ _).1 hcopy)
            exact ⟨bs, by simp [hbs]⟩

theorem connectMode_drained (f : Flags) (g : Globals) (w : World)
    (h : (connectMode f g w).1 = none) :
    ∃ bs, Event.read (connectSource f) bs .eof ∈ (connectMode f g w).2 := by
  by_cases hr : f.source ≠ "" → w.resolveErr = none
  · cases hd : w.dialErr with
    | some e => rw [connectMode_dialFail f g w e hr hd] at h; simp at h
    | none =>
      by_cases hi : f.inputFile = ""
      · rw [connectMode_stdin f g w hr hd hi] at h ⊢
        simp only [Option.map_eq_none', connectTransfer_none w .stdin (by simp)] at h
        obtain ⟨bs, hbs⟩ := copy_drained _ _ _ _ h
        exact ⟨bs, by simp [connectSource, hi, hbs]⟩
      · cases hop : w.openErr with
        | some e => rw [connectMode_openFail f g w e hr hd hi hop] at h; simp at h
        | none =>
          rw [connectMode_file f g w hr hd hi hop] at h ⊢
          cases hcopy : (connectTransfer w (.file f.inputFile)).1 with
          | some e => simp [hcopy] at h
          | none =>
            obtain ⟨bs, hbs⟩ := copy_drained _ _ _ _
              ((connectTransfer_none w (.file f.inputFile) (by simp)).1 hcopy)
            exact ⟨bs, by simp [connectSource, hi, hbs]⟩
  · have hs : f.source ≠ "" := fun h => hr (fun h2 => absurd h h2)
    cases hre : w.resolveErr with
    | none => exact absurd (fun _ => hre) hr
    | some e => rw [connectMode_resolveFail f g w e hs hre] at h; simp at h

theorem main_of_valid (progName : String) (f : Flags) (w : World)
    (hv : (parseFlags f ⟨"", ""⟩).1 = none) :
    ((startWork f w).1 = none → main progName f w = ((startWork f w).2, 0)) ∧
    (∀ e, (startWork f w).1 = some e →
      main progName f w
        = ((startWork f w).2 ++ [.stderr (progName ++ ": " ++ e.message ++ "\n"), .exit 1], 1)) := by
  constructor
  · intro h
    simp [main, hv, h]
  · intro e h
    simp [main, hv, h]

/-- C4, the claim as stated fails: in connect mode, closing the connection fails
and nothing else does; `connectMode` returns nil and `main` exits with status 0. -/
theorem close_failure_unreported :
    Event.close .conn (some (.base "connection reset by peer"))
      ∈ (connectMode sampleConnect sampleGlobals connCloseFailWorld).2 ∧
    (Event.close .conn (some (.base "connection reset by peer"))).failed = true ∧
    (connectMode sampleConnect sampleGlobals connCloseFailWorld).1 = none ∧
    (parseFlags sampleConnect ⟨"", ""⟩).1 = none ∧
    (main "nc" sampleConnect connCloseFailWorld).2 = 0 := by
  decide

/-- C4, amended: `listenMode` and `connectMode` return nil exactly when no call
failed other than the close of the listener or of the connection, whose
results are dropped; so a failing listen, accept, source-address resolution,
dial, file open, read, write or file close gives a non-nil error.  When nil is
returned the source was read up to end-of-data.  For a configuration that
passes `parseFlags`, `main` exits with status 0 without a message when the mode
function returns nil, and otherwise ends with the single line
"<program>: <description>" on the standard error stream and exits with status 1. -/
theorem failures_reported (progName : String) (f : Flags) (g : Globals) (w : World) :
    ((listenMode f g w).1 = none ↔
      ∀ ev ∈ (listenMode f g w).2, ev.failed = true → ev.droppedClose = true) ∧
    ((listenMode f g w).1 = none → ∃ bs, Event.read .conn bs .eof ∈ (listenMode f g w).2) ∧
    ((connectMode f g w).1 = none ↔
      ∀ ev ∈ (connectMode f g w).2, ev.failed = true → ev.droppedClose = true) ∧
    ((connectMode f g w).1 = none →
      ∃ bs, Event.read (connectSource f) bs .eof ∈ (connectMode f g w).2) ∧
    ((parseFlags f ⟨"", ""⟩).1 = none →
      ((startWork f w).1 = none → main progName f w = ((startWork f w).2, 0)) ∧
      (∀ e, (startWork f w).1 = some e →
        main progName f w
          = ((startWork f w).2 ++ [.stderr (progName ++ ": " ++ e.message ++ "\n"), .exit 1],
              1))) :=
  ⟨listenMode_reported f g w, listenMode_drained f g w, connectMode_reported f g w,
    connectMode_drained f g w, main_of_valid progName f w⟩

/-- C4 amended, at `fileCloseFailWorld`: closing `out.bin` fails, `listenMode`
returns the error and `main` prints it and exits with status 1. -/
theorem failures_reported_witness :
    (parseFlags sampleListen ⟨"", ""⟩).1 = none ∧
    (startWork sampleListen fileCloseFailWorld).1
      = some (.wrap "failed to close file" (.base "input/output error")) ∧
    main "nc" sampleListen fileCloseFailWorld
      = ((startWork sampleListen fileCloseFailWorld).2
          ++ [.stderr "nc: failed to close file: input/output error\n", .exit 1], 1) :=
  ⟨by decide, by decide,
    ((failures_reported "nc" sampleListen sampleGlobals fileCloseFailWorld).2.2.2.2
      (by decide)).2 (.wrap "failed to close file" (.base "input/output error")) (by decide)⟩

/-! ## C5: a single accept or dial -/

theorem listenMode_attempts (f : Flags) (g : Globals) (w : World) :
    (listenMode f g w).2.countP Event.isAccept = (if w.listenErr = none then 1 else 0) ∧
    (listenMode f g w).2.countP Event.isDial = 0 := by
  have s1 : ∀ s, (say f s).countP Event.isAccept = 0 := fun s => countP_say _ _ _ rfl
  have s2 : ∀ s, (say f s).countP Event.isDial = 0 := fun s => countP_say _ _ _ rfl
  have c1 : ∀ dst src rs ws, (copyLoop dst src rs ws).2.countP Event.isAccept = 0 :=
    fun dst src rs ws => copy_countP_zero _ _ _ _ _ (fun _ _ => rfl) (fun _ _ _ => rfl)
  have c2 : ∀ dst src rs ws, (copyLoop dst src rs ws).2.countP Event.isDial = 0 :=
    fun dst src rs ws => copy_countP_zero _ _ _ _ _ (fun _ _ => rfl) (fun _ _ _ => rfl)
  cases hl : w.listenErr with
  | some e =>
    rw [listenMode_listenFail f g w e hl]
    simp [List.countP_cons, Event.isAccept, Event.isDial]
  | none =>
    cases ha : w.acceptErr with
    | some e =>
      rw [listenMode_acceptFail f g w e hl ha]
      simp [List.countP_cons, Event.isAccept, Event.isDial, s1, s2]
    | none =>
      by_cases ho : f.outputFile = ""
      · rw [listenMode_stdout f g w hl ha ho]
        simp [List.countP_cons, Event.isAccept, Event.isDial, s1, s2, c1, c2]
      · cases hcr : w.createErr with
        | some e =>
          rw [listenMode_createFail f g w e hl ha ho hcr]
          simp [List.countP_cons, Event.isAccept, Event.isDial, s1, s2]
        | none =>
          rw [listenMode_file f g w hl ha ho hcr]
          simp [List.countP_cons, Event.isAccept, Event.isDial, s1, s2, c1, c2]

theorem connectMode_attempts (f : Flags) (g : Globals) (w : World) :
    (connectMode f g w).2.countP Event.isDial
      = (if f.source ≠ "" ∧ w.resolveErr ≠ none then 0 else 1) ∧
    (connectMode f g w).2.countP Event.isAccept = 0 := by
  have s1 : ∀ s, (say f s).countP Event.isAccept = 0 := fun s => countP_say _ _ _ rfl
  have s2 : ∀ s, (say f s).countP Event.isDial = 0 := fun s => countP_say _ _ _ rfl
  have c1 : ∀ dst src rs ws, (copyLoop dst src rs ws).2.countP Event.isAccept = 0 :=
    fun dst src rs ws => copy_countP_zero _ _ _ _ _ (fun _ _ => rfl) (fun _ _ _ => rfl)
  have c2 : ∀ dst src rs ws, (copyLoop dst src rs ws).2.countP Event.isDial = 0 :=
    fun dst src rs ws => copy_countP_zero _ _ _ _ _ (fun _ _ => rfl) (fun _ _ _ => rfl)
  have r1 : (resolveCalls f g w).countP Event.isAccept = 0 :=
    countP_resolveCalls _ _ _ _ (fun _ _ => rfl) (fun _ => rfl)
  have r2 : (resolveCalls f g w).countP Event.isDial = 0 :=
    countP_resolveCalls _ _ _ _ (fun _ _ => rfl) (fun _ => rfl)
  by_cases hr : f.source ≠ "" → w.resolveErr = none
  · have hif : ¬ (f.source ≠ "" ∧ w.resolveErr ≠ none) := fun h => h.2 (hr h.1)
    rw [if_neg hif]
    cases hd : w.dialErr with
    | some e =>
      rw [connectMode_dialFail f g w e hr hd]
      simp [List.countP_cons, Event.isAccept, Event.isDial, s1, s2, r1, r2]
    | none =>
      by_cases hi : f.inputFile = ""
      · rw [connectMode_stdin f g w hr hd hi]
        simp [List.countP_cons, Event.isAccept, Event.isDial, s1, s2, r1, r2, c1, c2]
      · cases hop : w.openErr with
        | some e =>
          rw [connectMode_openFail f g w e hr hd hi hop]
          simp [List.countP_cons, Event.isAccept, Event.isDial, s1, s2, r1, r2]
        | none =>
          rw [connectMode_file f g w hr hd hi hop]
          simp [List.countP_cons, Event.isAccept, Event.isDial, s1, s2, r1, r2, c1, c2]
  · have hs : f.source ≠ "" := fun h => hr (fun h2 => absurd h h2)
    cases hre : w.resolveErr with
    | none => exact absurd (fun _ => hre) hr
    | some e =>
      rw [connectMode_resolveFail f g w e hs hre]
      simp [List.countP_cons, Event.isAccept, Event.isDial, hs]

theorem main_attempts (progName : String) (f : Flags) (w : World) :
    (main progName f w).1.countP Event.isAccept + (main progName f w).1.countP Event.isDial
      ≤ 1 := by
  have hl := listenMode_attempts f (mainGlobals f) w
  have hc := connectMode_attempts f (mainGlobals f) w
  have hl1 : (listenMode f (mainGlobals f) w).2.countP Event.isAccept ≤ 1 := by
    rw [hl.1]; split <;> simp
  have hc1 : (connectMode f (mainGlobals f) w).2.countP Event.isDial ≤ 1 := by
    rw [hc.1]; split <;> simp
  unfold main
  cases hp : (parseFlags f ⟨"", ""⟩).1 with
  | some e => simp [usage, List.countP_cons, Event.isAccept, Event.isDial]
  | none =>
    cases hfl : f.listen <;> cases hr : (startWork f w).1 <;>
      simp [startWork, hfl] at hr <;>
      simp [startWork, hfl, hr, List.countP_cons, Event.isAccept, Event.isDial, hl.2, hc.2,
        hl1, hc1]

/-- C5, the claim as stated fails: the configuration passes `parseFlags`, the
address cannot be bound, and no accept is called. -/
theorem no_accept_when_bind_fails :
    (parseFlags sampleListen ⟨"", ""⟩).1 = none ∧
    (listenMode sampleListen sampleGlobals listenFailWorld).2.countP Event.isAccept = 0 ∧
    (main "nc" sampleListen listenFailWorld).1.countP Event.isAccept = 0 := by
  decide

/-- C5, amended: there is never more than one attempt.  `listenMode` calls accept
exactly once when the listen succeeded and not at all when it failed, and never
dials; `connectMode` dials exactly once, except that it does not dial when a
configured source address fails to resolve, and never accepts; an invocation of
`main` makes at most one accept or dial in total. -/
theorem single_attempt (progName : String) (f : Flags) (g : Globals) (w : World) :
    (listenMode f g w).2.countP Event.isAccept = (if w.listenErr = none then 1 else 0) ∧
    (listenMode f g w).2.countP Event.isDial = 0 ∧
    (connectMode f g w).2.countP Event.isDial
      = (if f.source ≠ "" ∧ w.resolveErr ≠ none then 0 else 1) ∧
    (connectMode f g w).2.countP Event.isAccept = 0 ∧
    (main progName f w).1.countP Event.isAccept + (main progName f w).1.countP Event.isDial
      ≤ 1 :=
  ⟨(listenMode_attempts f g w).1, (listenMode_attempts f g w).2,
    (connectMode_attempts f g w).1, (connectMode_attempts f g w).2,
    main_attempts progName f w⟩

/-! ## C6: when the listener is closed -/

theorem beforeListenerClose_append (t : List Event) (e : Option Err)
    (h : ∀ ev ∈ t, Event.closes .listener ev = false) :
    beforeListenerClose (t ++ [.close .listener e]) = t := by
  induction t with
  | nil => simp [beforeListenerClose]
  | cons ev t ih =>
    have h1 := h ev (by simp)
    have h2 := ih (fun x hx => h x (by simp [hx]))
    cases ev with
    | close hd err =>
      cases hd with
      | listener => simp [Event.closes] at h1
      | _ => simp [beforeListenerClose, h2]
    | _ => simp [beforeListenerClose, h2]

theorem mem_copy_closes (dst src : Handle) (rs : List ReadStep) (ws : List WriteStep) :
    ∀ ev ∈ (copyLoop dst src rs ws).2, Event.closes .listener ev = false := by
  intro ev hev
  rcases copy_events dst src rs ws ev hev with ⟨bs, st, h⟩ | ⟨buf, n, e, h⟩ <;>
    simp [h, Event.closes]

theorem mem_say_closes (f : Flags) (s : String) :
    ∀ ev ∈ say f s, Event.closes .listener ev = false := by
  intro ev hev
  rw [mem_say f s ev hev]
  rfl

theorem listener_closed_last_aux (t t0 : List Event) (e : Option Err)
    (ht : t = t0 ++ [.close .listener e])
    (h : ∀ ev ∈ t0, Event.closes .listener ev = false) :
    t = beforeListenerClose t ++ [.close .listener e] ∧ beforeListenerClose t = t0 := by
  subst ht
  rw [beforeListenerClose_append t0 e h]
  exact ⟨rfl, rfl⟩

theorem say_closes_iff (f : Flags) (s : String) :
    (∀ ev ∈ say f s, Event.closes .listener ev = false) ↔ True :=
  iff_true_intro (mem_say_closes f s)

theorem copy_closes_iff (dst src : Handle) (rs : List ReadStep) (ws : List WriteStep) :
    (∀ ev ∈ (copyLoop dst src rs ws).2, Event.closes .listener ev = false) ↔ True :=
  iff_true_intro (mem_copy_closes dst src rs ws)

theorem listenMode_listener_last (f : Flags) (g : Globals) (w : World)
    (hl : w.listenErr = none) :
    (listenMode f g w).2
      = beforeListenerClose (listenMode f g w).2 ++ [.close .listener (w.closeErr .listener)] ∧
    (∀ e, w.acceptErr = some e →
      (beforeListenerClose (listenMode f g w).2).getLast? = some (.accept (some e))) := by
  cases ha : w.acceptErr with
  | some e =>
    have h := listener_closed_last_aux (listenMode f g w).2
      ([.listen g.network g.destination none]
        ++ say f ("listening on " ++ w.listenerAddr ++ "\n") ++ [.accept (some e)])
      (w.closeErr .listener)
      (by rw [listenMode_acceptFail f g w e hl ha]; simp)
      (by
        simp only [List.forall_mem_append, List.forall_mem_cons, say_closes_iff]
        simp [Event.closes])
    refine ⟨h.1, fun e2 he2 => ?_⟩
    rw [h.2, List.getLast?_concat]
    simp at he2
    simp [he2]
  | none =>
    refine ⟨?_, fun e2 he2 => by simp at he2⟩
    by_cases ho : f.outputFile = ""
    · exact (listener_closed_last_aux (listenMode f g w).2
        ([.listen g.network g.destination none]
          ++ say f ("listening on " ++ w.listenerAddr ++ "\n")
          ++ [.accept none]
          ++ say f ("connection from " ++ w.remoteAddr ++ "\n")
          ++ (copyLoop .stdout .conn (w.reads .conn) (w.writes .stdout)).2
          ++ [.close .conn (w.closeErr .conn)])
        (w.closeErr .listener)
        (by rw [listenMode_stdout f g w hl ha ho]; simp)
        (by
          simp only [List.forall_mem_append, List.forall_mem_cons, say_closes_iff,
            copy_closes_iff]
          simp [Event.closes])).1
    · cases hcr : w.createErr with
      | some e =>
        exact (listener_closed_last_aux (listenMode f g w).2
          ([.listen g.network g.destination none]
            ++ say f ("listening on " ++ w.listenerAddr ++ "\n")
            ++ [.accept none]
            ++ say f ("connection from " ++ w.remoteAddr ++ "\n")
            ++ [.create f.outputFile (some e), .close .conn (w.closeErr .conn)])
          (w.closeErr .listener)
          (by rw [listenMode_createFail f g w e hl ha ho hcr]; simp)
          (by
            simp only [List.forall_mem_append, List.forall_mem_cons, say_closes_iff]
            simp [Event.closes])).1
      | none =>
        exact (listener_closed_last_aux (listenMode f g w).2
          ([.listen g.network g.destination none]
            ++ say f ("listening on " ++ w.listenerAddr ++ "\n")
            ++ [.accept none]
            ++ say f ("connection from " ++ w.remoteAddr ++ "\n")
            ++ [.create f.outputFile none]
            ++ (copyLoop (.file f.outputFile) .conn (w.reads .conn)
                (w.writes (.file f.outputFile))).2
            ++ [.close (.file f.outputFile) (w.closeErr (.file f.outputFile)),
                .close .conn (w.closeErr .conn)])
          (w.closeErr .listener)
          (by rw [listenMode_file f g w hl ha ho hcr]; simp)
          (by
            simp only [List.forall_mem_append, List.forall_mem_cons, say_closes_iff,
              copy_closes_iff]
            simp [Event.closes])).1

/-- C6, the claim as stated fails: the accept succeeds, and the three bytes are
written to `out.bin` before the listener is closed; the listener is closed
last, after the file and the connection. -/
theorem listener_open_during_relay :
    (listenMode sampleListen sampleGlobals sampleWorld).2
      = [.listen "tcp" "localhost:9000" none, .accept none, .create "out.bin" none,
          .read .conn [1, 2] .more, .write (.file "out.bin") [1, 2] 2 none,
          .read .conn [3] .eof, .write (.file "out.bin") [3] 1 none,
          .close (.file "out.bin") none, .close .conn none, .close .listener none] ∧
    received (.file "out.bin")
      (beforeListenerClose (listenMode sampleListen sampleGlobals sampleWorld).2) = [1, 2, 3] := by
  decide

/-- C6, amended: once the listening socket has been bound, its `Close` is the
last call of `listenMode`, made when the function returns: every other call,
the relay and the closes of the file and of the connection included, comes
before it.  When the accept failed, the accept is the call right before it. -/
theorem listener_closed_last (f : Flags) (g : Globals) (w : World)
    (hl : w.listenErr = none) :
    (listenMode f g w).2
      = beforeListenerClose (listenMode f g w).2 ++ [.close .listener (w.closeErr .listener)] ∧
    (∀ e, w.acceptErr = some e →
      (beforeListenerClose (listenMode f g w).2).getLast? = some (.accept (some e))) :=
  listenMode_listener_last f g w hl

/-- C6 amended, at `acceptFailWorld`: the accept fails and the listener is closed next. -/
theorem listener_closed_last_witness :
    acceptFailWorld.listenErr = none ∧
    (listenMode sampleListen sampleGlobals acceptFailWorld).2
      = [.listen "tcp" "localhost:9000" none,
          .accept (some (.base "use of closed network connection"))]
        ++ [.close .listener none] ∧
    (beforeListenerClose (listenMode sampleListen sampleGlobals acceptFailWorld).2).getLast?
      = some (.accept (some (.base "use of closed network connection"))) :=
  ⟨rfl, (listener_closed_last sampleListen sampleGlobals acceptFailWorld rfl).1,
    (listener_closed_last sampleListen sampleGlobals acceptFailWorld rfl).2 _ rfl⟩

/-! ## C7: the description wrapped around a copy error -/

/-- C7, the code at the failing inputs.  In listen mode every read of the
connection succeeds and the write to `out.bin` fails: `listenMode` returns the
error of the write under the description "failed to read from connection".  In
connect mode the read of `in.bin` fails and nothing is written: `connectMode`
returns the error of the read under the description "failed to write to
connection". -/
theorem copy_error_names_other_side :
    listenMode sampleListen sampleGlobals writeFailWorld
      = (some (.wrap "failed to read from connection"
            (.opError "writeto" "tcp" "127.0.0.1:9000" "127.0.0.1:40000"
              (.base "write out.bin: no space left on device"))),
          [.listen "tcp" "localhost:9000" none, .accept none, .create "out.bin" none,
            .read .conn [1, 2] .more,
            .write (.file "out.bin") [1, 2] 0
              (some (.base "write out.bin: no space left on device")),
            .close (.file "out.bin") (some (.base "input/output error")),
            .close .conn (some (.base "input/output error")),
            .close .listener (some (.base "input/output error"))]) ∧
    (Err.wrap "failed to read from connection"
        (.opError "writeto" "tcp" "127.0.0.1:9000" "127.0.0.1:40000"
          (.base "write out.bin: no space left on device"))).message
      = "failed to read from connection: writeto tcp 127.0.0.1:9000->127.0.0.1:40000: write out.bin: no space left on device" ∧
    connectMode sampleConnect sampleGlobals readFailWorld
      = (some (.wrap "failed to write to connection"
            (.opError "readfrom" "tcp" "127.0.0.1:40000" "127.0.0.1:9000"
              (.base "read in.bin: input/output error"))),
          [.dial "tcp" "localhost:9000" none none, .openFile "in.bin" none,
            .read (.file "in.bin") [] (.failed (.base "read in.bin: input/output error")),
            .close (.file "in.bin") none, .close .conn none]) ∧
    (Err.wrap "failed to write to connection"
        (.opError "readfrom" "tcp" "127.0.0.1:40000" "127.0.0.1:9000"
          (.base "read in.bin: input/output error"))).message
      = "failed to write to connection: readfrom tcp 127.0.0.1:40000->127.0.0.1:9000: read in.bin: input/output error" := by
  decide

/-! ## C8, C9, C10: validation of the flags and choice of the network -/

theorem parseFlags_none_iff (f : Flags) (g : Globals) :
    (parseFlags f g).1 = none ↔
      f.args.length = 2 ∧ f.args.getD 0 "" ≠ "" ∧ f.args.getD 1 "" ≠ "" ∧
      ¬ (f.useIPv4 = true ∧ f.useIPv6 = true) ∧
      ¬ (f.listen = true ∧ f.source ≠ "") ∧
      ¬ (f.listen = true ∧ f.inputFile ≠ "") ∧
      ¬ (f.listen = false ∧ f.outputFile ≠ "") := by
  simp only [parseFlags]
  generalize f.args.getD 0 "" = host
  generalize f.args.getD 1 "" = port
  generalize f.args.length = n
  by_cases h1 : n = 2
  · by_cases h2 : host = ""
    · simp [h1, h2]
    · by_cases h3 : port = ""
      · simp [h1, h2, h3]
      · cases h4 : f.useIPv4 <;> cases h6 : f.useIPv6 <;> cases hl : f.listen <;>
          by_cases hs : f.source = "" <;> by_cases hi : f.inputFile = "" <;>
          by_cases ho : f.outputFile = "" <;> simp [h1, h2, h3, hs, hi, ho]
  · simp [h1]

theorem parseFlags_error (f : Flags) (g : Globals) (h : (parseFlags f g).1 ≠ none) :
    ∃ e, (parseFlags f g).1 = some e := by
  cases hp : (parseFlags f g).1 with
  | none => exact absurd hp h
  | some e => exact ⟨e, rfl⟩

theorem parseFlags_both (f : Flags) (g : Globals) (h4 : f.useIPv4 = true)
    (h6 : f.useIPv6 = true) : ∃ e, (parseFlags f g).1 = some e :=
  parseFlags_error f g (fun h => ((parseFlags_none_iff f g).1 h).2.2.2.1 ⟨h4, h6⟩)

theorem parseFlags_listen_source (f : Flags) (g : Globals) (hl : f.listen = true)
    (hs : f.source ≠ "" ∨ f.inputFile ≠ "") : ∃ e, (parseFlags f g).1 = some e :=
  parseFlags_error f g (fun h => by
    have hv := (parseFlags_none_iff f g).1 h
    rcases hs with hs | hs
    · exact hv.2.2.2.2.1 ⟨hl, hs⟩
    · exact hv.2.2.2.2.2.1 ⟨hl, hs⟩)

theorem parseFlags_connect_output (f : Flags) (g : Globals) (hl : f.listen = false)
    (ho : f.outputFile ≠ "") : ∃ e, (parseFlags f g).1 = some e :=
  parseFlags_error f g (fun h => ((parseFlags_none_iff f g).1 h).2.2.2.2.2.2 ⟨hl, ho⟩)

/-- C8: with both `-4` and `-6` set, whatever the other flags and the arguments
are, `parseFlags` returns an error; `main` then writes the error and the usage
text to the standard error stream and exits with status 1, and makes no other
call: neither `listenMode` nor `connectMode` runs. -/
theorem both_families_rejected (progName : String) (f : Flags) (g : Globals) (w : World)
    (h4 : f.useIPv4 = true) (h6 : f.useIPv6 = true) :
    (∃ e, (parseFlags f g).1 = some e) ∧
    (∃ e : Err, main progName f w
      = (.stderr (progName ++ ": " ++ e.message ++ "\n") :: usage progName, 1)) := by
  refine ⟨parseFlags_both f g h4 h6, ?_⟩
  obtain ⟨e, he⟩ := parseFlags_both f ⟨"", ""⟩ h4 h6
  exact ⟨e, by simp [main, he]⟩

/-- C8 at `nc -4 -6 -l localhost 9000`. -/
theorem both_families_rejected_witness :
    sampleBothFamilies.useIPv4 = true ∧ sampleBothFamilies.useIPv6 = true ∧
    (∃ e, (parseFlags sampleBothFamilies sampleGlobals).1 = some e) ∧
    (∃ e : Err, main "nc" sampleBothFamilies sampleWorld
      = (.stderr ("nc" ++ ": " ++ e.message ++ "\n") :: usage "nc", 1)) :=
  ⟨rfl, rfl, both_families_rejected "nc" sampleBothFamilies sampleGlobals sampleWorld rfl rfl⟩

/-- C9: in listen mode with a source address or an input file configured, and in
connect mode with an output file configured, `parseFlags` returns an error,
whatever the other flags and the arguments are. -/
theorem mode_restriction (f : Flags) (g : Globals) :
    (f.listen = true → (f.source ≠ "" ∨ f.inputFile ≠ "") →
      ∃ e, (parseFlags f g).1 = some e) ∧
    (f.listen = false → f.outputFile ≠ "" → ∃ e, (parseFlags f g).1 = some e) :=
  ⟨parseFlags_listen_source f g, parseFlags_connect_output f g⟩

/-- C9 at `nc -l -o out.bin -i in.bin localhost 9000` and at
`nc -i in.bin -o out.bin localhost 9000`. -/
theorem mode_restriction_witness :
    (∃ e, (parseFlags { sampleListen with inputFile := "in.bin" } sampleGlobals).1 = some e) ∧
    (∃ e, (parseFlags { sampleConnect with outputFile := "out.bin" } sampleGlobals).1
      = some e) :=
  ⟨(mode_restriction { sampleListen with inputFile := "in.bin" } sampleGlobals).1 rfl
      (Or.inr (by decide)),
    (mode_restriction { sampleConnect with outputFile := "out.bin" } sampleGlobals).2 rfl
      (by decide)⟩

theorem say_network_iff (f : Flags) (s net : String) :
    (∀ ev ∈ say f s, ∀ n, ev.network? = some n → n = net) ↔ True := by
  refine iff_true_intro (fun ev hev n hn => ?_)
  rw [mem_say f s ev hev] at hn
  simp [Event.network?] at hn

theorem copy_network_iff (dst src : Handle) (rs : List ReadStep) (ws : List WriteStep)
    (net : String) :
    (∀ ev ∈ (copyLoop dst src rs ws).2, ∀ n, ev.network? = some n → n = net) ↔ True := by
  refine iff_true_intro (fun ev hev n hn => ?_)
  rcases copy_events dst src rs ws ev hev with ⟨bs, st, h⟩ | ⟨buf, k, e, h⟩ <;>
    simp [h, Event.network?] at hn

theorem resolveCalls_network_iff (f : Flags) (g : Globals) (w : World) :
    (∀ ev ∈ resolveCalls f g w, ∀ n, ev.network? = some n → n = g.network) ↔ True := by
  refine iff_true_intro (fun ev hev n hn => ?_)
  rcases mem_resolveCalls f g w ev hev with h | h
  · simp [h, Event.network?] at hn
    exact hn.symm
  · simp [h, Event.network?] at hn

theorem listenMode_network (f : Flags) (g : Globals) (w : World) :
    ∀ ev ∈ (listenMode f g w).2, ∀ n, ev.network? = some n → n = g.network := by
  cases hl : w.listenErr with
  | some e =>
    rw [listenMode_listenFail f g w e hl]
    simp [Event.network?, eq_comm]
  | none =>
    cases ha : w.acceptErr with
    | some e =>
      rw [listenMode_acceptFail f g w e hl ha]
      simp only [List.forall_mem_append, List.forall_mem_cons, say_network_iff]
      simp [Event.network?, eq_comm]
    | none =>
      by_cases ho : f.outputFile = ""
      · rw [listenMode_stdout f g w hl ha ho]
        simp only [List.forall_mem_append, List.forall_mem_cons, say_network_iff,
          copy_network_iff]
        simp [Event.network?, eq_comm]
      · cases hcr : w.createErr with
        | some e =>
          rw [listenMode_createFail f g w e hl ha ho hcr]
          simp only [List.forall_mem_append, List.forall_mem_cons, say_network_iff]
          simp [Event.network?, eq_comm]
        | none =>
          rw [listenMode_file f g w hl ha ho hcr]
          simp only [List.forall_mem_append, List.forall_mem_cons, say_network_iff,
            copy_network_iff]
          simp [Event.network?, eq_comm]

theorem connectMode_network (f : Flags) (g : Globals) (w : World) :
    ∀ ev ∈ (connectMode f g w).2, ∀ n, ev.network? = some n → n = g.network := by
  by_cases hr : f.source ≠ "" → w.resolveErr = none
  · cases hd : w.dialErr with
    | some e =>
      rw [connectMode_dialFail f g w e hr hd]
      simp only [List.forall_mem_append, List.forall_mem_cons, say_network_iff,
        resolveCalls_network_iff]
      simp [Event.network?, eq_comm]
    | none =>
      by_cases hi : f.inputFile = ""
      · rw [connectMode_stdin f g w hr hd hi]
        simp only [List.forall_mem_append, List.forall_mem_cons, say_network_iff,
          resolveCalls_network_iff, copy_network_iff]
        simp [Event.network?, eq_comm]
      · cases hop : w.openErr with
        | some e =>
          rw [connectMode_openFail f g w e hr hd hi hop]
          simp only [List.forall_mem_append, List.forall_mem_cons, say_network_iff,
            resolveCalls_network_iff]
          simp [Event.network?, eq_comm]
        | none =>
          rw [connectMode_file f g w hr hd hi hop]
          simp only [List.forall_mem_append, List.forall_mem_cons, say_network_iff,
            resolveCalls_network_iff, copy_network_iff]
          simp [Event.network?, eq_comm]
  · have hs : f.source ≠ "" := fun h => hr (fun h2 => absurd h h2)
    cases hre : w.resolveErr with
    | none => exact absurd (fun _ => hre) hr
    | some e =>
      rw [connectMode_resolveFail f g w e hs hre]
      simp [Event.network?, eq_comm]

theorem main_network (progName : String) (f : Flags) (w : World) :
    ∀ ev ∈ (main progName f w).1, ∀ n, ev.network? = some n → n = selectNetwork f := by
  have hl := listenMode_network f (mainGlobals f) w
  have hc := connectMode_network f (mainGlobals f) w
  have hg : (mainGlobals f).network = selectNetwork f := rfl
  rw [hg] at hl hc
  have hs : ∀ ev ∈ (startWork f w).2, ∀ n, ev.network? = some n → n = selectNetwork f := by
    unfold startWork
    split
    · exact hl
    · exact hc
  intro ev hev n hn
  unfold main at hev
  cases hp : (parseFlags f ⟨"", ""⟩).1 with
  | some e =>
    simp [hp, usage] at hev
    rcases hev with h | h | h | h <;> simp [h, Event.network?] at hn
  | none =>
    cases hr : (startWork f w).1 with
    | none =>
      simp [hp, hr] at hev
      exact hs ev hev n hn
    | some e =>
      simp [hp, hr] at hev
      rcases hev with h | h | h
      · exact hs ev h n hn
      · simp [h, Event.network?] at hn
      · simp [h, Event.network?] at hn

/-- C10: for a configuration that passes `parseFlags`, the network chosen by
`main` is "tcp4" exactly when `-4` is set, "tcp6" exactly when `-6` is set and
"tcp" exactly when neither is set, and it is the network of every `Listen`,
`ResolveTCPAddr` and `Dial` call of the run. -/
theorem network_family (progName : String) (f : Flags) (w : World)
    (hv : (parseFlags f ⟨"", ""⟩).1 = none) :
    (selectNetwork f = "tcp4" ↔ f.useIPv4 = true) ∧
    (selectNetwork f = "tcp6" ↔ f.useIPv6 = true) ∧
    (selectNetwork f = "tcp" ↔ (f.useIPv4 = false ∧ f.useIPv6 = false)) ∧
    (mainGlobals f).network = selectNetwork f ∧
    (∀ ev ∈ (main progName f w).1, ∀ n, ev.network? = some n → n = selectNetwork f) := by
  have h46 := ((parseFlags_none_iff f ⟨"", ""⟩).1 hv).2.2.2.1
  refine ⟨?_, ?_, ?_, rfl, main_network progName f w⟩
  · cases h4 : f.useIPv4 <;> cases h6 : f.useIPv6 <;> simp [selectNetwork, h4, h6]
  · cases h4 : f.useIPv4 <;> cases h6 : f.useIPv6 <;> simp [selectNetwork, h4, h6] at h46 ⊢
  · cases h4 : f.useIPv4 <;> cases h6 : f.useIPv6 <;> simp [selectNetwork, h4, h6]

/-- C10 at `nc -6 -l -o out.bin localhost 9000`: the listen is on "tcp6". -/
theorem network_family_witness :
    (parseFlags { sampleListen with useIPv6 := true } ⟨"", ""⟩).1 = none ∧
    selectNetwork { sampleListen with useIPv6 := true } = "tcp6" ∧
    (∀ ev ∈ (main "nc" { sampleListen with useIPv6 := true } sampleWorld).1,
      ∀ n, ev.network? = some n → n = "tcp6") :=
  ⟨by decide, by decide,
    (network_family "nc" { sampleListen with useIPv6 := true } sampleWorld (by decide)).2.2.2.2⟩

end Nc
